import Mathlib

set_option maxRecDepth 10000

/-!
Verification of the `x402-secure` payment gateway against its design
specification.

The development shallowly embeds the relevant Python modules:

* `proxy/src/x402_proxy/headers.py` — the `X-PAYMENT-SECURE`,
  `X-AP2-EVIDENCE` and risk-id header parsers;
* `packages/x402-secure/src/x402_secure_client/headers.py` — the
  `X-PAYMENT-SECURE` builder;
* `proxy/src/x402_proxy/routes.py` — AP2 verification helpers, the error
  code table, payload sanitization, and the `/x402/verify` and
  `/x402/settle` route handlers;
* `proxy/src/x402_proxy/risk_routes.py` — the local risk store and its
  `evaluate` operation.

Strings are modelled as `List Char` (Python `str` is a sequence of code
points, and `len`/slicing/`split`/`strip` act on code points, matching
list operations).  Byte strings are `List Nat`.  Python dictionaries
appearing as JSON objects are association lists.  Exceptions are
modelled with `Except`/`Option`.
-/

namespace X402

/-- Python `str.strip` whitespace: the full `str.isspace()` character
set of CPython — `\t`–`\r` (9–13), the separators `\x1c`–`\x1f`, the
space, NEL (U+0085), NBSP (U+00A0), U+1680, U+2000–U+200A, U+2028,
U+2029, U+202F, U+205F and U+3000. -/
def isPySpace (c : Char) : Bool :=
  decide ((9 ≤ c.toNat ∧ c.toNat ≤ 13) ∨ (28 ≤ c.toNat ∧ c.toNat ≤ 32) ∨
    c.toNat = 133 ∨ c.toNat = 160 ∨ c.toNat = 5760 ∨
    (8192 ≤ c.toNat ∧ c.toNat ≤ 8202) ∨ c.toNat = 8232 ∨ c.toNat = 8233 ∨
    c.toNat = 8239 ∨ c.toNat = 8287 ∨ c.toNat = 12288)

/-- Strip leading whitespace, as in Python `str.lstrip`. -/
def stripLeft (l : List Char) : List Char := l.dropWhile isPySpace

/-- Strip trailing whitespace, as in Python `str.rstrip`. -/
def stripRight (l : List Char) : List Char :=
  ((l.reverse).dropWhile isPySpace).reverse

/-- Python `str.strip`. -/
def pyStrip (l : List Char) : List Char := stripRight (stripLeft l)

/-- Python `str.split(c)` for a one-character separator: splits on every
occurrence, keeping empty pieces (`"".split(";") == [""]`). -/
def splitChar (c : Char) : List Char → List (List Char)
  | [] => [[]]
  | a :: rest =>
    if a = c then
      [] :: splitChar c rest
    else
      match splitChar c rest with
      | [] => [[a]]
      | h :: t => (a :: h) :: t

/-- Inverse of `splitChar`: interleave the separator back. -/
def joinChar (c : Char) : List (List Char) → List Char
  | [] => []
  | [x] => x
  | x :: xs => x ++ c :: joinChar c xs

/-- Split a segment at its first `'='`, as in Python `p.split("=", 1)`;
`none` when the segment contains no `'='`. -/
def splitEq : List Char → Option (List Char × List Char)
  | [] => none
  | a :: rest =>
    if a = '=' then
      some ([], rest)
    else
      match splitEq rest with
      | some (k, v) => some (a :: k, v)
      | none => none

/-- Last-binding lookup: Python `dict` assignment `kv[k] = v` in a loop
overwrites earlier bindings, so `kv.get(k)` returns the value of the
last segment with key `k`. -/
def lastLookup (k : List Char) : List (List Char × List Char) → Option (List Char)
  | [] => none
  | (k0, v0) :: rest =>
    match lastLookup k rest with
    | some v => some v
    | none => if k0 = k then some v0 else none

/-- Lowercase hex digit, Python character class `[0-9a-f]`. -/
def isLHex (c : Char) : Bool :=
  ('0' ≤ c && c ≤ '9') || ('a' ≤ c && c ≤ 'f')

/-- `_HEX32.match`/`_HEX16.match`/`_HEX2.match`: the pattern
`^[0-9a-f]{n}$` matches the first `n` characters as lowercase hex and
then `$`, which in Python (no `re.MULTILINE`) matches at the end of the
string or just before a single newline at the end — so `n` hex digits
optionally followed by one `'\n'` are accepted. -/
def hexMatch (n : Nat) (l : List Char) : Bool :=
  ((l.take n).length == n && (l.take n).all isLHex) &&
    (l.drop n == [] || l.drop n == ['\n'])

/-- Result of `parse_x_payment_secure`: the returned dict, which has a
`tp` entry and an optional `ts` entry (present only when non-empty). -/
structure TraceCtx where
  tp : List Char
  ts : Option (List Char)
deriving DecidableEq

/-- `headers._validate_traceparent`: split on `'-'` into exactly four
pieces; version literally `"00"`; trace-id, span-id and flags matched
against `^[0-9a-f]{32|16|2}$` with Python's `$` semantics (`hexMatch`,
which also accepts one trailing newline); the all-zero checks are
literal string comparisons with `"0"*32` / `"0"*16`. -/
def validate_traceparent (tp : List Char) : Except (List Char) Unit :=
  match splitChar '-' tp with
  | [v, t, s, f] =>
    if v ≠ ('0' :: ['0']) then .error "traceparent version must be 00".data
    else if ¬ hexMatch 32 t then .error "trace_id invalid".data
    else if ¬ hexMatch 16 s then .error "span_id invalid".data
    else if ¬ hexMatch 2 f then .error "flags invalid".data
    else if t = List.replicate 32 '0' then .error "trace_id cannot be all zeros".data
    else if s = List.replicate 16 '0' then .error "span_id cannot be all zeros".data
    else .ok ()
  | _ => .error "traceparent format invalid".data

/-- The segment list of `parse_x_payment_secure`:
`[p.strip() for p in value.split(";") if p.strip()]`. -/
def segsOf (s : List Char) : List (List Char) :=
  ((splitChar ';' s).map pyStrip).filter (· ≠ [])

/-- The `kv` loop of `parse_x_payment_secure`: each segment must contain
`'='` and is split at the first one. -/
def collectKV : List (List Char) → Except (List Char) (List (List Char × List Char))
  | [] => .ok []
  | p :: rest =>
    match splitEq p with
    | none => .error "Malformed X-PAYMENT-SECURE segment".data
    | some kv =>
      match collectKV rest with
      | .error e => .error e
      | .ok pairs => .ok (kv :: pairs)

/-- `headers.parse_x_payment_secure`, embedded from the source. -/
def parse_x_payment_secure (s : List Char) : Except (List Char) TraceCtx :=
  if 4096 < s.length then .error "X-PAYMENT-SECURE too large".data
  else
    match segsOf s with
    | [] => .error "Unsupported X-PAYMENT-SECURE version".data
    | p0 :: rest =>
      if p0 ≠ "w3c.v1".data then .error "Unsupported X-PAYMENT-SECURE version".data
      else
        match collectKV rest with
        | .error e => .error e
        | .ok pairs =>
          match lastLookup "tp".data pairs with
          | none => .error "traceparent (tp) required".data
          | some tp =>
            match validate_traceparent tp with
            | .error e => .error e
            | .ok _ =>
              match lastLookup "ts".data pairs with
              | some ts => if ts = [] then .ok ⟨tp, none⟩ else .ok ⟨tp, some ts⟩
              | none => .ok ⟨tp, none⟩

/-- `x402_secure_client.headers.build_payment_secure_header`, restricted
to its serialization step: `f"w3c.v1;tp={tp}" + (f";ts={ts}" if ts else "")`.
Applied to a parsed `TraceCtx` (whose `ts`, when present, is non-empty). -/
def build_payment_secure (r : TraceCtx) : List Char :=
  "w3c.v1;tp=".data ++ r.tp ++
    (match r.ts with
     | some ts => ";ts=".data ++ ts
     | none => [])

/-! ### Lemmas about the string utilities -/

theorem splitChar_ne_nil (c : Char) (l : List Char) : splitChar c l ≠ [] := by
  induction l with
  | nil => simp [splitChar]
  | cons a rest ih =>
    simp only [splitChar]
    by_cases h : a = c
    · simp [h]
    · simp only [h, if_false]
      cases hs : splitChar c rest with
      | nil => simp
      | cons x xs => simp

theorem splitChar_not_mem (c : Char) (l : List Char) :
    ∀ p ∈ splitChar c l, c ∉ p := by
  induction l with
  | nil => intro p hp; simp [splitChar] at hp; simp [hp]
  | cons a rest ih =>
    intro p hp
    by_cases h : a = c
    · simp only [splitChar, h, if_true] at hp
      rcases List.mem_cons.mp hp with hp | hp
      · simp [hp]
      · exact ih p hp
    · cases hs : splitChar c rest with
      | nil => exact absurd hs (splitChar_ne_nil c rest)
      | cons x xs =>
        simp only [splitChar, h, if_false, hs] at hp
        rcases List.mem_cons.mp hp with hp | hp
        · subst hp
          intro hc
          rcases List.mem_cons.mp hc with hc | hc
          · exact h hc.symm
          · exact ih x (hs ▸ List.mem_cons_self x xs) hc
        · exact ih p (hs ▸ List.mem_cons_of_mem x hp)

theorem joinChar_splitChar (c : Char) (l : List Char) :
    joinChar c (splitChar c l) = l := by
  induction l with
  | nil => simp [splitChar, joinChar]
  | cons a rest ih =>
    by_cases h : a = c
    · subst h
      cases hs : splitChar a rest with
      | nil => exact absurd hs (splitChar_ne_nil a rest)
      | cons x xs =>
        rw [hs] at ih
        simp [splitChar, hs, joinChar, ih]
    · cases hs : splitChar c rest with
      | nil => exact absurd hs (splitChar_ne_nil c rest)
      | cons x xs =>
        rw [hs] at ih
        cases xs with
        | nil => simp only [splitChar, h, if_false, hs, joinChar]; simpa using ih
        | cons y ys =>
          simp only [splitChar, h, if_false, hs, joinChar, List.cons_append]
          simpa [joinChar] using ih

theorem splitChar_append (c : Char) (b : List Char) :
    ∀ a : List Char, c ∉ a → splitChar c (a ++ c :: b) = a :: splitChar c b := by
  intro a h
  induction a with
  | nil => simp [splitChar]
  | cons x xs ih =>
    have hx : x ≠ c := fun hc => h (hc ▸ List.mem_cons_self x xs)
    have hxs : c ∉ xs := fun hc => h (List.mem_cons_of_mem x hc)
    have ih2 := ih hxs
    cases hs : splitChar c (xs ++ c :: b) with
    | nil => exact absurd hs (splitChar_ne_nil c _)
    | cons z zs =>
      rw [hs] at ih2
      simp only [List.cons_append, splitChar, hx, if_false, List.append_eq, hs]
      rw [List.cons.injEq] at ih2
      simp [ih2.1, ih2.2]

theorem splitChar_eq_single (c : Char) :
    ∀ a : List Char, c ∉ a → splitChar c a = [a] := by
  intro a h
  induction a with
  | nil => simp [splitChar]
  | cons x xs ih =>
    have hx : x ≠ c := fun hc => h (hc ▸ List.mem_cons_self x xs)
    have hxs : c ∉ xs := fun hc => h (List.mem_cons_of_mem x hc)
    simp [splitChar, hx, ih hxs]

theorem splitChar_sum (c : Char) (l : List Char) :
    ((splitChar c l).map (fun p => p.length + 1)).sum = l.length + 1 := by
  induction l with
  | nil => simp [splitChar]
  | cons a rest ih =>
    by_cases h : a = c
    · simp only [splitChar, h, if_true, List.map_cons, List.sum_cons,
        List.length_cons, List.length_nil]
      omega
    · cases hs : splitChar c rest with
      | nil => exact absurd hs (splitChar_ne_nil c rest)
      | cons x xs =>
        rw [hs] at ih
        simp only [splitChar, h, if_false, hs, List.map_cons, List.sum_cons,
          List.length_cons] at ih ⊢
        omega

theorem mem_le_sum_map {α : Type} (f : α → Nat) (a : α) :
    ∀ l : List α, a ∈ l → f a ≤ (l.map f).sum := by
  intro l hl
  induction l with
  | nil => simp at hl
  | cons x xs ih =>
    rcases List.mem_cons.mp hl with h | h
    · subst h; simp
    · simp only [List.map_cons, List.sum_cons]
      exact le_trans (ih h) (Nat.le_add_left _ _)

theorem mem_splitChar_length_le (c : Char) (l : List Char) (p : List Char)
    (h : p ∈ splitChar c l) : p.length ≤ l.length := by
  have h1 : p.length + 1 ≤ ((splitChar c l).map (fun q => q.length + 1)).sum :=
    mem_le_sum_map (fun q => q.length + 1) p (splitChar c l) h
  have h2 := splitChar_sum c l
  omega

theorem dropWhile_head_false (p : Char → Bool) :
    ∀ (l : List Char) (a : Char), (l.dropWhile p).head? = some a → p a = false := by
  intro l
  induction l with
  | nil => intro a h; simp [List.dropWhile] at h
  | cons x xs ih =>
    intro a h
    by_cases hx : p x
    · exact ih a (by simpa [List.dropWhile, hx] using h)
    · simp only [List.dropWhile, hx, List.head?] at h
      cases h
      simpa using hx

theorem dropWhile_id (p : Char → Bool) (l : List Char)
    (h : ∀ a, l.head? = some a → p a = false) : l.dropWhile p = l := by
  cases l with
  | nil => rfl
  | cons x xs => simp [List.dropWhile, h x rfl]

theorem dropWhile_sfx (p : Char → Bool) (l : List Char) :
    ∃ t, t ++ l.dropWhile p = l := by
  induction l with
  | nil => exact ⟨[], rfl⟩
  | cons x xs ih =>
    by_cases hx : p x
    · rcases ih with ⟨t, ht⟩
      exact ⟨x :: t, by simp [List.dropWhile, hx, ht]⟩
    · exact ⟨[], by simp [List.dropWhile, hx]⟩

theorem stripRight_pfx (l : List Char) : ∃ t, stripRight l ++ t = l := by
  rcases dropWhile_sfx isPySpace l.reverse with ⟨t, ht⟩
  refine ⟨t.reverse, ?_⟩
  have := congrArg List.reverse ht
  simpa [stripRight, List.reverse_append] using this

theorem stripLeft_head (l : List Char) (a : Char)
    (h : (stripLeft l).head? = some a) : isPySpace a = false :=
  dropWhile_head_false isPySpace l a h

theorem stripRight_getLast (l : List Char) (a : Char)
    (h : (stripRight l).getLast? = some a) : isPySpace a = false := by
  have h2 : (l.reverse.dropWhile isPySpace).head? = some a := by
    simpa [stripRight, List.getLast?_reverse] using h
  exact dropWhile_head_false isPySpace l.reverse a h2

theorem stripRight_head (l : List Char) (a : Char)
    (h : (stripRight l).head? = some a) : l.head? = some a := by
  rcases stripRight_pfx l with ⟨t, ht⟩
  cases hs : stripRight l with
  | nil => rw [hs] at h; simp at h
  | cons x xs =>
    rw [hs] at h ht
    simp only [List.head?] at h
    cases h
    rw [← ht]
    simp

theorem pyStrip_head (l : List Char) (a : Char)
    (h : (pyStrip l).head? = some a) : isPySpace a = false :=
  stripLeft_head l a (stripRight_head (stripLeft l) a h)

theorem pyStrip_getLast (l : List Char) (a : Char)
    (h : (pyStrip l).getLast? = some a) : isPySpace a = false :=
  stripRight_getLast (stripLeft l) a h

theorem pyStrip_eq_self (l : List Char)
    (h1 : ∀ a, l.head? = some a → isPySpace a = false)
    (h2 : ∀ a, l.getLast? = some a → isPySpace a = false) : pyStrip l = l := by
  have hl : stripLeft l = l := dropWhile_id isPySpace l h1
  unfold pyStrip
  rw [hl]
  unfold stripRight
  rw [dropWhile_id isPySpace l.reverse
    (fun a ha => h2 a (by simpa [List.head?_reverse] using ha))]
  simp

theorem pyStrip_sublist (l : List Char) : (pyStrip l).Sublist l := by
  have h1 : (stripLeft l).Sublist l := List.dropWhile_sublist _
  have h2 : (pyStrip l).Sublist (stripLeft l) := by
    have := List.dropWhile_sublist (p := isPySpace) (l := (stripLeft l).reverse)
    have h3 := this.reverse
    simpa [pyStrip, stripRight] using h3
  exact h2.trans h1

/-! ### Lemmas about `splitEq`, `collectKV`, `lastLookup` -/

theorem splitEq_append (v : List Char) :
    ∀ k : List Char, '=' ∉ k → splitEq (k ++ '=' :: v) = some (k, v) := by
  intro k h
  induction k with
  | nil => simp [splitEq]
  | cons x xs ih =>
    have hx : x ≠ '=' := fun hc => h (hc ▸ List.mem_cons_self x xs)
    have hxs : '=' ∉ xs := fun hc => h (List.mem_cons_of_mem x hc)
    simp [splitEq, hx, ih hxs]

theorem splitEq_eq_some :
    ∀ (p k v : List Char), splitEq p = some (k, v) → p = k ++ '=' :: v ∧ '=' ∉ k := by
  intro p
  induction p with
  | nil => intro k v h; simp [splitEq] at h
  | cons x xs ih =>
    intro k v h
    by_cases hx : x = '='
    · simp only [splitEq, hx, if_true, Option.some.injEq, Prod.mk.injEq] at h
      rw [← h.1, ← h.2]
      simp [hx]
    · cases hs : splitEq xs with
      | none => simp [splitEq, hx, hs] at h
      | some kv =>
        rcases kv with ⟨k0, v0⟩
        simp only [splitEq, hx, if_false, hs, Option.some.injEq, Prod.mk.injEq] at h
        rcases ih k0 v0 hs with ⟨he, hm⟩
        rw [← h.1, ← h.2]
        constructor
        · simp [he]
        · intro hc
          rcases List.mem_cons.mp hc with hc | hc
          · exact hx hc.symm
          · exact hm hc

theorem collectKV_mem :
    ∀ (ps : List (List Char)) (pairs : List (List Char × List Char)),
      collectKV ps = .ok pairs → ∀ kv ∈ pairs, ∃ p ∈ ps, splitEq p = some kv := by
  intro ps
  induction ps with
  | nil =>
    intro pairs h kv hm
    simp only [collectKV, Except.ok.injEq] at h
    rw [← h] at hm
    simp at hm
  | cons p rest ih =>
    intro pairs h kv hm
    cases hse : splitEq p with
    | none => simp [collectKV, hse] at h
    | some kv0 =>
      cases hr : collectKV rest with
      | error e => simp [collectKV, hse, hr] at h
      | ok tailPairs =>
        simp only [collectKV, hse, hr, Except.ok.injEq] at h
        rw [← h] at hm
        rcases List.mem_cons.mp hm with hm | hm
        · exact ⟨p, List.mem_cons_self p rest, hm ▸ hse⟩
        · rcases ih tailPairs hr kv hm with ⟨q, hq, hqe⟩
          exact ⟨q, List.mem_cons_of_mem p hq, hqe⟩

theorem lastLookup_mem :
    ∀ (pairs : List (List Char × List Char)) (k v : List Char),
      lastLookup k pairs = some v → (k, v) ∈ pairs := by
  intro pairs
  induction pairs with
  | nil => intro k v h; simp [lastLookup] at h
  | cons kv rest ih =>
    intro k v h
    rcases kv with ⟨k0, v0⟩
    cases hr : lastLookup k rest with
    | some w =>
      simp only [lastLookup, hr, Option.some.injEq] at h
      exact List.mem_cons_of_mem _ (ih k v (h ▸ hr))
    | none =>
      simp only [lastLookup, hr] at h
      by_cases hk : k0 = k
      · simp only [hk, if_true, Option.some.injEq] at h
        rw [hk, h]
        exact List.mem_cons_self _ _
      · simp [hk] at h

/-! ### Facts derived from a successful traceparent validation -/

theorem isLHex_props (c : Char) (h : isLHex c = true) :
    isPySpace c = false ∧ c ≠ ';' := by
  simp only [isLHex, Bool.or_eq_true, Bool.and_eq_true, decide_eq_true_eq] at h
  have hv : (48 ≤ c.val.toNat ∧ c.val.toNat ≤ 57) ∨
      (97 ≤ c.val.toNat ∧ c.val.toNat ≤ 102) := by
    rcases h with ⟨h1, h2⟩ | ⟨h1, h2⟩
    · exact Or.inl ⟨h1, h2⟩
    · exact Or.inr ⟨h1, h2⟩
  constructor
  · rw [isPySpace, decide_eq_false_iff_not]
    have he : c.toNat = c.val.toNat := rfl
    omega
  · intro he; subst he; revert hv; decide

theorem validate_ok_parts (T : List Char) (h : validate_traceparent T = .ok ()) :
    ∃ t s f, splitChar '-' T = [('0' :: ['0']), t, s, f] ∧
      hexMatch 32 t = true ∧ hexMatch 16 s = true ∧ hexMatch 2 f = true := by
  unfold validate_traceparent at h
  split at h
  case _ v t s f heq =>
    split_ifs at h with h1 h2 h3 h4 h5 h6
    · exact ⟨t, s, f, by rw [heq, not_not.mp h1], h2, h3, h4⟩
  case _ => simp at h

theorem hexMatch_take (n : Nat) (l : List Char) (h : hexMatch n l = true) :
    (l.take n).length = n ∧ ∀ c ∈ l.take n, isLHex c = true := by
  simp only [hexMatch, Bool.and_eq_true, beq_iff_eq, List.all_eq_true] at h
  exact ⟨h.1.1, fun c hc => h.1.2 c hc⟩

theorem hexMatch_drop (n : Nat) (l : List Char) (h : hexMatch n l = true) :
    l.drop n = [] ∨ l.drop n = ['\n'] := by
  simp only [hexMatch, Bool.and_eq_true, Bool.or_eq_true, beq_iff_eq] at h
  exact h.2

theorem hexMatch_len (n : Nat) (l : List Char) (h : hexMatch n l = true) :
    l.length = n ∨ l.length = n + 1 := by
  have ht := (hexMatch_take n l h).1
  have hlen : l.length = (l.take n).length + (l.drop n).length := by
    rw [← List.length_append, List.take_append_drop]
  rcases hexMatch_drop n l h with hd | hd
  · left; rw [hlen, ht, hd]; rfl
  · right; rw [hlen, ht, hd]; rfl

theorem hexMatch_chars (n : Nat) (l : List Char) (h : hexMatch n l = true) :
    ∀ c ∈ l, isLHex c = true ∨ c = '\n' := by
  intro c hc
  have hc2 : c ∈ l.take n ++ l.drop n := by
    rw [List.take_append_drop]; exact hc
  rcases List.mem_append.mp hc2 with hm | hm
  · exact Or.inl ((hexMatch_take n l h).2 c hm)
  · rcases hexMatch_drop n l h with hd | hd
    · rw [hd] at hm; cases hm
    · rw [hd] at hm
      simp only [List.mem_singleton] at hm
      exact Or.inr hm

theorem validate_ok_join (T : List Char) (h : validate_traceparent T = .ok ()) :
    ∃ t s f, T = '0' :: '0' :: '-' :: (t ++ '-' :: (s ++ '-' :: f)) ∧
      hexMatch 32 t = true ∧ hexMatch 16 s = true ∧ hexMatch 2 f = true := by
  rcases validate_ok_parts T h with ⟨t, s, f, hsp, h32, h16, h2⟩
  refine ⟨t, s, f, ?_, h32, h16, h2⟩
  have hj := joinChar_splitChar '-' T
  rw [hsp] at hj
  simpa [joinChar] using hj.symm

theorem validate_ok_chars (T : List Char) (h : validate_traceparent T = .ok ()) :
    ∀ c ∈ T, isLHex c = true ∨ c = '-' ∨ c = '\n' := by
  rcases validate_ok_join T h with ⟨t, s, f, hT, h32, h16, h2⟩
  intro c hc
  rw [hT] at hc
  simp only [List.mem_cons, List.mem_append] at hc
  rcases hc with rfl | rfl | rfl | hc
  · left; decide
  · left; decide
  · right; left; rfl
  rcases hc with hc | rfl | hc
  · rcases hexMatch_chars 32 t h32 c hc with hx | rfl
    · exact Or.inl hx
    · exact Or.inr (Or.inr rfl)
  · right; left; rfl
  rcases hc with hc | rfl | hc
  · rcases hexMatch_chars 16 s h16 c hc with hx | rfl
    · exact Or.inl hx
    · exact Or.inr (Or.inr rfl)
  · right; left; rfl
  · rcases hexMatch_chars 2 f h2 c hc with hx | rfl
    · exact Or.inl hx
    · exact Or.inr (Or.inr rfl)

theorem validate_ok_len (T : List Char) (h : validate_traceparent T = .ok ()) :
    55 ≤ T.length ∧ T.length ≤ 58 := by
  rcases validate_ok_join T h with ⟨t, s, f, hT, h32, h16, h2⟩
  have l32 := hexMatch_len 32 t h32
  have l16 := hexMatch_len 16 s h16
  have l2 := hexMatch_len 2 f h2
  rw [hT]
  simp only [List.length_cons, List.length_append]
  omega

theorem validate_char_props (T : List Char) (h : validate_traceparent T = .ok ()) :
    ';' ∉ T := by
  intro hc
  rcases validate_ok_chars T h ';' hc with hx | hx | hx
  · exact absurd hx (by decide)
  · exact absurd hx (by decide)
  · exact absurd hx (by decide)

/-! ### Facts about segments produced by `segsOf` -/

theorem segsOf_mem (s p : List Char) (hp : p ∈ segsOf s) :
    ';' ∉ p ∧ p ≠ [] ∧ (∀ a, p.head? = some a → isPySpace a = false) ∧
      (∀ a, p.getLast? = some a → isPySpace a = false) := by
  simp only [segsOf, List.mem_filter, List.mem_map, decide_eq_true_eq] at hp
  rcases hp with ⟨⟨q, hq, hpq⟩, hne⟩
  have hq1 : ';' ∉ q := splitChar_not_mem ';' s q hq
  refine ⟨?_, hne, ?_, ?_⟩
  · intro hc
    exact hq1 ((pyStrip_sublist q).mem (hpq ▸ hc))
  · intro a ha
    exact pyStrip_head q a (hpq ▸ ha)
  · intro a ha
    exact pyStrip_getLast q a (hpq ▸ ha)

theorem getLast?_mem_self {α : Type} (l : List α) (a : α) (h : l.getLast? = some a) :
    a ∈ l := by
  have h2 : l.reverse.head? = some a := by rw [List.head?_reverse]; exact h
  have h3 := List.mem_of_mem_head? h2
  simpa using h3

theorem sublist_sum_le {α : Type} (f : α → Nat) {l₁ l₂ : List α} (h : l₁.Sublist l₂) :
    (l₁.map f).sum ≤ (l₂.map f).sum := by
  induction h with
  | slnil => simp
  | cons a h ih => simpa using le_trans ih (Nat.le_add_left _ _)
  | cons₂ a h ih => simpa using ih

theorem two_mem_sum_le {α : Type} [DecidableEq α] (f : α → Nat) (l : List α) (a b : α)
    (ha : a ∈ l) (hb : b ∈ l) (hne : a ≠ b) : f a + f b ≤ (l.map f).sum := by
  have hperm : l.Perm (a :: l.erase a) := List.perm_cons_erase ha
  have hsum : (l.map f).sum = f a + ((l.erase a).map f).sum := by
    have := (hperm.map f).sum_eq
    simpa using this
  have hb2 : b ∈ l.erase a := (List.mem_erase_of_ne (Ne.symm hne)).mpr hb
  have hble := mem_le_sum_map f b (l.erase a) hb2
  omega

/-- Everything a successful `parse_x_payment_secure` run reveals about its
input and result. -/
theorem parse_ok_anatomy (x : List Char) (r : TraceCtx)
    (h : parse_x_payment_secure x = .ok r) :
    ∃ rest pairs,
      segsOf x = "w3c.v1".data :: rest ∧
      collectKV rest = .ok pairs ∧
      lastLookup "tp".data pairs = some r.tp ∧
      validate_traceparent r.tp = .ok () ∧
      x.length ≤ 4096 ∧
      (r.ts = none ∨ ∃ S, r.ts = some S ∧ S ≠ [] ∧ lastLookup "ts".data pairs = some S) := by
  unfold parse_x_payment_secure at h
  by_cases hlen : 4096 < x.length
  · rw [if_pos hlen] at h; cases h
  rw [if_neg hlen] at h
  cases hseg : segsOf x with
  | nil => rw [hseg] at h; cases h
  | cons p0 rest =>
    rw [hseg] at h
    dsimp only at h
    by_cases hp0 : p0 ≠ "w3c.v1".data
    · rw [if_pos hp0] at h; cases h
    rw [if_neg hp0] at h
    rw [not_not] at hp0
    subst hp0
    cases hkv : collectKV rest with
    | error e => rw [hkv] at h; cases h
    | ok pairs =>
      rw [hkv] at h
      dsimp only at h
      cases htp : lastLookup (['t', 'p'] : List Char) pairs with
      | none => rw [htp] at h; cases h
      | some tp =>
        rw [htp] at h
        dsimp only at h
        cases hval : validate_traceparent tp with
        | error e => rw [hval] at h; cases h
        | ok u =>
          cases u
          rw [hval] at h
          dsimp only at h
          cases hts : lastLookup (['t', 's'] : List Char) pairs with
          | none =>
            rw [hts] at h
            cases h
            exact ⟨rest, pairs, rfl, hkv, htp, hval, Nat.le_of_not_lt hlen, Or.inl rfl⟩
          | some ts =>
            rw [hts] at h
            dsimp only at h
            by_cases hempty : ts = []
            · rw [if_pos hempty] at h
              cases h
              exact ⟨rest, pairs, rfl, hkv, htp, hval, Nat.le_of_not_lt hlen, Or.inl rfl⟩
            · rw [if_neg hempty] at h
              cases h
              exact ⟨rest, pairs, rfl, hkv, htp, hval, Nat.le_of_not_lt hlen,
                Or.inr ⟨ts, rfl, hempty, hts⟩⟩

/-! ### Computing `parse_x_payment_secure` on well-formed inputs -/

/-- A key/value segment whose key starts with a non-space character and
whose value has no trailing space is `pyStrip`-stable. -/
theorem kvSeg_strip (k v : List Char) (hk : ∀ a, k.head? = some a → isPySpace a = false)
    (hkn : k ≠ [])
    (hv : ∀ a, v.getLast? = some a → isPySpace a = false) :
    pyStrip (k ++ '=' :: v) = k ++ '=' :: v := by
  apply pyStrip_eq_self
  · intro a ha
    cases k with
    | nil => exact absurd rfl hkn
    | cons k0 ks =>
      simp only [List.cons_append, List.head?] at ha
      cases ha
      exact hk _ rfl
  · intro a ha
    rw [List.getLast?_append_cons] at ha
    cases v with
    | nil =>
      simp only [List.getLast?_singleton] at ha
      cases ha
      decide
    | cons v0 vs =>
      rw [List.getLast?_cons_cons] at ha
      exact hv a ha

theorem segsOf_one (p : List Char) (hp : ';' ∉ p) (hps : pyStrip p = p) (hpn : p ≠ []) :
    segsOf ("w3c.v1".data ++ ';' :: p) = ["w3c.v1".data, p] := by
  unfold segsOf
  rw [splitChar_append ';' p "w3c.v1".data (by decide), splitChar_eq_single ';' p hp]
  simp only [List.map_cons, List.map_nil, hps]
  rw [(by decide : pyStrip "w3c.v1".data = "w3c.v1".data)]
  simp [List.filter_cons, hpn]

theorem segsOf_two (p q : List Char) (hp : ';' ∉ p) (hq : ';' ∉ q)
    (hps : pyStrip p = p) (hqs : pyStrip q = q) (hpn : p ≠ []) (hqn : q ≠ []) :
    segsOf ("w3c.v1".data ++ ';' :: (p ++ ';' :: q)) = ["w3c.v1".data, p, q] := by
  unfold segsOf
  rw [splitChar_append ';' (p ++ ';' :: q) "w3c.v1".data (by decide),
    splitChar_append ';' q p hp, splitChar_eq_single ';' q hq]
  simp only [List.map_cons, List.map_nil, hps, hqs]
  rw [(by decide : pyStrip "w3c.v1".data = "w3c.v1".data)]
  simp [List.filter_cons, hpn, hqn]

/-- `validate_traceparent` success plus a non-whitespace final
character give the facts needed about the `tp=` segment.  (A valid
traceparent may end in `'\n'` — a newline-tainted flags piece — and
such a segment is altered by stripping, hence the extra hypothesis.) -/
theorem segTp_props (T : List Char) (hval : validate_traceparent T = .ok ())
    (hTlast : ∀ a, T.getLast? = some a → isPySpace a = false) :
    ';' ∉ ("tp".data ++ '=' :: T) ∧
      pyStrip ("tp".data ++ '=' :: T) = "tp".data ++ '=' :: T := by
  have hsemi := validate_char_props T hval
  constructor
  · intro hc
    simp only [List.mem_append, List.mem_cons] at hc
    rcases hc with hc | hc | hc
    · revert hc; decide
    · cases hc
    · exact hsemi hc
  · apply kvSeg_strip
    · intro a ha
      simp only [List.head?] at ha
      cases ha
      decide
    · decide
    · exact hTlast

theorem parse_concat_one (T : List Char) (hval : validate_traceparent T = .ok ())
    (hTlast : ∀ a, T.getLast? = some a → isPySpace a = false) :
    parse_x_payment_secure ("w3c.v1".data ++ ';' :: ("tp".data ++ '=' :: T)) =
      .ok ⟨T, none⟩ := by
  have hsp := segTp_props T hval hTlast
  have hTlen := validate_ok_len T hval
  have hlen : ("w3c.v1".data ++ ';' :: ("tp".data ++ '=' :: T)).length =
      T.length + 10 := by
    simp only [List.length_append, List.length_cons, List.length_nil]
    have h6 : "w3c.v1".data.length = 6 := rfl
    have h2 : "tp".data.length = 2 := rfl
    omega
  unfold parse_x_payment_secure
  rw [if_neg (by rw [hlen]; omega)]
  rw [segsOf_one ("tp".data ++ '=' :: T) hsp.1 hsp.2 (by simp)]
  dsimp only
  rw [if_neg (by simp)]
  have hkv : collectKV [("tp".data ++ '=' :: T)] = .ok [("tp".data, T)] := by
    unfold collectKV
    rw [splitEq_append T "tp".data (by decide)]
    rfl
  rw [hkv]
  dsimp only
  have htp : lastLookup "tp".data [("tp".data, T)] = some T := by
    simp [lastLookup]
  rw [htp]
  dsimp only
  rw [hval]
  dsimp only
  have hts : lastLookup "ts".data [("tp".data, T)] = none := by
    simp [lastLookup]
  rw [hts]

theorem parse_concat_two (T S : List Char) (hval : validate_traceparent T = .ok ())
    (hTlast : ∀ a, T.getLast? = some a → isPySpace a = false)
    (hS : ';' ∉ S) (hSn : S ≠ [])
    (hSlast : ∀ a, S.getLast? = some a → isPySpace a = false)
    (hlen : ("w3c.v1".data ++ ';' ::
      (("tp".data ++ '=' :: T) ++ ';' :: ("ts".data ++ '=' :: S))).length ≤ 4096) :
    parse_x_payment_secure ("w3c.v1".data ++ ';' ::
      (("tp".data ++ '=' :: T) ++ ';' :: ("ts".data ++ '=' :: S))) =
      .ok ⟨T, some S⟩ := by
  have hsp := segTp_props T hval hTlast
  have hqsemi : ';' ∉ ("ts".data ++ '=' :: S) := by
    intro hc
    simp only [List.mem_append, List.mem_cons] at hc
    rcases hc with hc | hc | hc
    · revert hc; decide
    · cases hc
    · exact hS hc
  have hqstrip : pyStrip ("ts".data ++ '=' :: S) = "ts".data ++ '=' :: S := by
    apply kvSeg_strip
    · intro a ha
      simp only [List.head?] at ha
      cases ha
      decide
    · decide
    · exact hSlast
  unfold parse_x_payment_secure
  rw [if_neg (by omega)]
  rw [segsOf_two ("tp".data ++ '=' :: T) ("ts".data ++ '=' :: S)
    hsp.1 hqsemi hsp.2 hqstrip (by simp) (by simp)]
  dsimp only
  rw [if_neg (by simp)]
  have hkv : collectKV [("tp".data ++ '=' :: T), ("ts".data ++ '=' :: S)] =
      .ok [("tp".data, T), ("ts".data, S)] := by
    unfold collectKV
    rw [splitEq_append T "tp".data (by decide)]
    unfold collectKV
    rw [splitEq_append S "ts".data (by decide)]
    rfl
  rw [hkv]
  dsimp only
  have htp : lastLookup "tp".data [("tp".data, T), ("ts".data, S)] = some T := by
    simp [lastLookup]
  rw [htp]
  dsimp only
  rw [hval]
  dsimp only
  have hts : lastLookup "ts".data [("tp".data, T), ("ts".data, S)] = some S := by
    simp [lastLookup]
  rw [hts]
  dsimp only
  rw [if_neg hSn]

/-- Sum bound used for the rebuilt header's length check: the weighted
segment sum of `segsOf x` is bounded by `x.length + 1`. -/
theorem segsOf_sum_le (x : List Char) :
    ((segsOf x).map (fun p => p.length + 1)).sum ≤ x.length + 1 := by
  have h1 : ((segsOf x).map (fun p => p.length + 1)).sum ≤
      (((splitChar ';' x).map pyStrip).map (fun p => p.length + 1)).sum :=
    sublist_sum_le _ (List.filter_sublist _)
  have h2 : (((splitChar ';' x).map pyStrip).map (fun p => p.length + 1)).sum ≤
      ((splitChar ';' x).map (fun p => p.length + 1)).sum := by
    rw [List.map_map]
    apply List.sum_le_sum
    intro q hq
    have := (pyStrip_sublist q).length_le
    simp only [Function.comp_apply]
    omega
  have h3 := splitChar_sum ';' x
  omega

/-- Locate the originating segment of a `kv` entry found by `lastLookup`. -/
theorem lookup_to_segment (x : List Char) (rest : List (List Char))
    (pairs : List (List Char × List Char)) (k v : List Char)
    (hseg : segsOf x = "w3c.v1".data :: rest)
    (hkv : collectKV rest = .ok pairs)
    (hlook : lastLookup k pairs = some v) :
    k ++ '=' :: v ∈ rest ∧ ';' ∉ v ∧
      (∀ a, v.getLast? = some a → v ≠ [] → isPySpace a = false) := by
  have hmem := lastLookup_mem pairs k v hlook
  rcases collectKV_mem rest pairs hkv (k, v) hmem with ⟨seg, hsegmem, hsegeq⟩
  rcases splitEq_eq_some seg k v hsegeq with ⟨hsegform, _⟩
  have hsegin : seg ∈ segsOf x := by
    rw [hseg]
    exact List.mem_cons_of_mem _ hsegmem
  rcases segsOf_mem x seg hsegin with ⟨hsemi, _, _, hlast⟩
  subst hsegform
  refine ⟨hsegmem, ?_, ?_⟩
  · intro hc
    exact hsemi (by simp [hc])
  · intro a ha hne
    apply hlast
    rw [List.getLast?_append_cons]
    cases v with
    | nil => exact absurd rfl hne
    | cons v0 vs => rw [List.getLast?_cons_cons]; exact ha

/-- Round-trip: re-parsing the serialized form of a parsed
`X-PAYMENT-SECURE` header returns the same parse. -/
theorem parse_build_ok (x : List Char) (r : TraceCtx)
    (h : parse_x_payment_secure x = .ok r) :
    parse_x_payment_secure (build_payment_secure r) = .ok r := by
  obtain ⟨rest, pairs, hseg, hkv, htp, hval, hxlen, hts⟩ := parse_ok_anatomy x r h
  obtain ⟨T, ts⟩ := r
  simp only at htp hval hts ⊢
  have hTlen := validate_ok_len T hval
  have hTn : T ≠ [] := by
    intro he; rw [he] at hTlen; simp at hTlen
  rcases lookup_to_segment x rest pairs "tp".data T hseg hkv htp with
    ⟨hsegmemT, _, hTlast0⟩
  have hTlast : ∀ a, T.getLast? = some a → isPySpace a = false :=
    fun a ha => hTlast0 a ha hTn
  rcases hts with hnone | ⟨S, hsome, hSn, hlook⟩
  · subst hnone
    have hb : build_payment_secure ⟨T, none⟩ =
        "w3c.v1".data ++ ';' :: ("tp".data ++ '=' :: T) := by
      unfold build_payment_secure
      simp
    rw [hb, parse_concat_one T hval hTlast]
  · subst hsome
    rcases lookup_to_segment x rest pairs "ts".data S hseg hkv hlook with
      ⟨hsegmem, hSsemi, hSlast⟩
    -- length accounting for the rebuilt header
    have hsum := segsOf_sum_le x
    have hsegsum : ((segsOf x).map (fun p => p.length + 1)).sum =
        7 + ((rest).map (fun p => p.length + 1)).sum := by
      rw [hseg]
      simp
    have hne : ("tp".data ++ '=' :: T) ≠ ("ts".data ++ '=' :: S) := by
      intro he
      simp only [List.cons_append, List.nil_append, List.cons.injEq] at he
      exact absurd he.2.1 (by decide)
    have htwo := two_mem_sum_le (fun p => p.length + 1) rest
      ("tp".data ++ '=' :: T) ("ts".data ++ '=' :: S) hsegmemT hsegmem hne
    simp only at htwo
    simp only [List.length_append, List.length_cons, List.length_nil] at htwo
    have e2 : "tp".data.length = 2 := rfl
    have e3 : "ts".data.length = 2 := rfl
    have e6 : "w3c.v1".data.length = 6 := rfl
    have hb : build_payment_secure ⟨T, some S⟩ =
        "w3c.v1".data ++ ';' ::
          (("tp".data ++ '=' :: T) ++ ';' :: ("ts".data ++ '=' :: S)) := by
      unfold build_payment_secure
      simp
    rw [hb]
    apply parse_concat_two T S hval hTlast hSsemi hSn
      (fun a ha => hSlast a ha hSn)
    simp only [List.length_append, List.length_cons, List.length_nil]
    omega

/-- Parsing `w3c.v1;tp=<T>;<k>=<v>` with an unrecognized key `k`:
the unknown segment is silently ignored. -/
theorem parse_concat_unknown (T k v : List Char)
    (hval : validate_traceparent T = .ok ())
    (hTlast : ∀ a, T.getLast? = some a → isPySpace a = false)
    (hk1 : ';' ∉ k) (hk2 : '=' ∉ k) (hk3 : k ≠ [])
    (hk4 : ∀ a, k.head? = some a → isPySpace a = false)
    (hv1 : ';' ∉ v) (hv2 : ∀ a, v.getLast? = some a → isPySpace a = false)
    (hktp : k ≠ "tp".data) (hkts : k ≠ "ts".data)
    (hlen : ("w3c.v1".data ++ ';' ::
      (("tp".data ++ '=' :: T) ++ ';' :: (k ++ '=' :: v))).length ≤ 4096) :
    parse_x_payment_secure ("w3c.v1".data ++ ';' ::
      (("tp".data ++ '=' :: T) ++ ';' :: (k ++ '=' :: v))) = .ok ⟨T, none⟩ := by
  have hsp := segTp_props T hval hTlast
  have hqsemi : ';' ∉ (k ++ '=' :: v) := by
    intro hc
    simp only [List.mem_append, List.mem_cons] at hc
    rcases hc with hc | hc | hc
    · exact hk1 hc
    · cases hc
    · exact hv1 hc
  have hqstrip : pyStrip (k ++ '=' :: v) = k ++ '=' :: v :=
    kvSeg_strip k v hk4 hk3 hv2
  unfold parse_x_payment_secure
  rw [if_neg (by omega)]
  rw [segsOf_two ("tp".data ++ '=' :: T) (k ++ '=' :: v)
    hsp.1 hqsemi hsp.2 hqstrip (by simp) (by simp [hk3])]
  dsimp only
  rw [if_neg (by simp)]
  have hkv : collectKV [("tp".data ++ '=' :: T), (k ++ '=' :: v)] =
      .ok [("tp".data, T), (k, v)] := by
    unfold collectKV
    rw [splitEq_append T "tp".data (by decide)]
    unfold collectKV
    rw [splitEq_append v k hk2]
    rfl
  rw [hkv]
  dsimp only
  have htp : lastLookup "tp".data [("tp".data, T), (k, v)] = some T := by
    simp [lastLookup, hktp]
  rw [htp]
  dsimp only
  rw [hval]
  dsimp only
  have hts : lastLookup "ts".data [("tp".data, T), (k, v)] = none := by
    simp [lastLookup, hkts]
  rw [hts]

/-- C7 (counterexample): a segment with the unknown key `foo` is NOT a
hard error — the parser accepts the header and ignores the segment,
contradicting the claim that any segment other than `tp`/`ts` raises
`HeaderError`. -/
theorem c7_unknown_segment_accepted :
    parse_x_payment_secure
      "w3c.v1;tp=00-0123456789abcdef0123456789abcdef-0123456789abcdef-01;foo=bar".data =
      .ok ⟨"00-0123456789abcdef0123456789abcdef-0123456789abcdef-01".data, none⟩ := by
  rfl

/-- C7 (amended): the `X-PAYMENT-SECURE` parser raises `HeaderError` on
inputs longer than 4096 characters; a successful parse implies the first
segment is `w3c.v1` and the returned `tp` passes `_validate_traceparent`
— four `'-'`-separated pieces, version literally `00`, trace-id/span-id/
flags matching `^[0-9a-f]{32|16|2}$` where Python's `$` also accepts a
single trailing newline, and trace-id/span-id literally different from
the all-zero strings (so a missing or malformed `tp` and a wrong version
segment are hard errors, but a piece of the right hex length followed by
an interior newline — even an all-zero trace-id with a trailing newline —
is accepted); every conforming input — `w3c.v1` followed by a `tp`
segment carrying a valid traceparent whose final character survives
stripping, and optionally a `ts` segment — parses successfully; segments
with keys other than `tp`/`ts` are accepted and ignored rather than
rejected. -/
theorem c7_parser_contract :
    (∀ s : List Char, 4096 < s.length →
      parse_x_payment_secure s = .error "X-PAYMENT-SECURE too large".data) ∧
    (∀ (s : List Char) (r : TraceCtx), parse_x_payment_secure s = .ok r →
      (segsOf s).head? = some "w3c.v1".data ∧ validate_traceparent r.tp = .ok ()) ∧
    (∀ T : List Char, validate_traceparent T = .ok () →
      (∀ a, T.getLast? = some a → isPySpace a = false) →
      parse_x_payment_secure ("w3c.v1".data ++ ';' :: ("tp".data ++ '=' :: T)) =
        .ok ⟨T, none⟩) ∧
    (∀ T S : List Char, validate_traceparent T = .ok () →
      (∀ a, T.getLast? = some a → isPySpace a = false) →
      ';' ∉ S → S ≠ [] → (∀ a, S.getLast? = some a → isPySpace a = false) →
      ("w3c.v1".data ++ ';' ::
        (("tp".data ++ '=' :: T) ++ ';' :: ("ts".data ++ '=' :: S))).length ≤ 4096 →
      parse_x_payment_secure ("w3c.v1".data ++ ';' ::
        (("tp".data ++ '=' :: T) ++ ';' :: ("ts".data ++ '=' :: S))) =
        .ok ⟨T, some S⟩) ∧
    (∀ T k v : List Char, validate_traceparent T = .ok () →
      (∀ a, T.getLast? = some a → isPySpace a = false) →
      ';' ∉ k → '=' ∉ k → k ≠ [] →
      (∀ a, k.head? = some a → isPySpace a = false) →
      ';' ∉ v → (∀ a, v.getLast? = some a → isPySpace a = false) →
      k ≠ "tp".data → k ≠ "ts".data →
      ("w3c.v1".data ++ ';' ::
        (("tp".data ++ '=' :: T) ++ ';' :: (k ++ '=' :: v))).length ≤ 4096 →
      parse_x_payment_secure ("w3c.v1".data ++ ';' ::
        (("tp".data ++ '=' :: T) ++ ';' :: (k ++ '=' :: v))) = .ok ⟨T, none⟩) ∧
    (parse_x_payment_secure
        "w3c.v1;tp=00-0123456789abcdef0123456789abcdef\n-0123456789abcdef-01".data =
      .ok ⟨"00-0123456789abcdef0123456789abcdef\n-0123456789abcdef-01".data, none⟩) ∧
    (validate_traceparent
        "00-00000000000000000000000000000000\n-0123456789abcdef-01".data = .ok ()) := by
  refine ⟨?_, ?_, ?_, ?_, ?_, ?_, ?_⟩
  · intro s hs
    unfold parse_x_payment_secure
    rw [if_pos hs]
  · intro s r h
    obtain ⟨rest, pairs, hseg, _, _, hval, _, _⟩ := parse_ok_anatomy s r h
    exact ⟨by rw [hseg]; rfl, hval⟩
  · intro T hval hlast
    exact parse_concat_one T hval hlast
  · intro T S hval hlast h1 h2 h3 h4
    exact parse_concat_two T S hval hlast h1 h2 h3 h4
  · intro T k v hval hlast h1 h2 h3 h4 h5 h6 h7 h8 h9
    exact parse_concat_unknown T k v hval hlast h1 h2 h3 h4 h5 h6 h7 h8 h9
  · rfl
  · rfl

/-- Witness for `c7_parser_contract` at concrete inputs. -/
theorem c7_parser_contract_witness :
    parse_x_payment_secure
      ("w3c.v1".data ++ ';' :: ("tp".data ++ '=' ::
        "00-0123456789abcdef0123456789abcdef-0123456789abcdef-01".data)) =
      .ok ⟨"00-0123456789abcdef0123456789abcdef-0123456789abcdef-01".data, none⟩ :=
  c7_parser_contract.2.2.1
    "00-0123456789abcdef0123456789abcdef-0123456789abcdef-01".data (by rfl)
    (by
      intro a ha
      have ha2 : (some '1' : Option Char) = some a := ha
      injection ha2 with hae
      exact hae ▸ (by decide : isPySpace '1' = false))

/-- C8: for every accepted `X-PAYMENT-SECURE` value `x`, serializing the
parse result in the builder's output format `w3c.v1;tp=<tp>[;ts=<ts>]`
and parsing again yields the same parsed value:
`parse (build (parse x)) = parse x`. -/
theorem c8_roundtrip (x : List Char) (r : TraceCtx)
    (h : parse_x_payment_secure x = .ok r) :
    parse_x_payment_secure (build_payment_secure r) = parse_x_payment_secure x := by
  rw [h]
  exact parse_build_ok x r h

/-- Witness for `c8_roundtrip` at a concrete accepted header. -/
theorem c8_roundtrip_witness :
    parse_x_payment_secure (build_payment_secure
      ⟨"00-0123456789abcdef0123456789abcdef-0123456789abcdef-01".data,
        some "dGlkPTQy".data⟩) =
    parse_x_payment_secure
      "w3c.v1;tp=00-0123456789abcdef0123456789abcdef-0123456789abcdef-01;ts=dGlkPTQy".data :=
  c8_roundtrip _ _ (by rfl)

/-! ### `routes._error_code_from_message` -/

/-- Python `k in m` substring test for strings. -/
def containsSub : List Char → List Char → Bool
  | n, [] => n.isEmpty
  | n, h :: t => n.isPrefixOf (h :: t) || containsSub n t

theorem containsSub_iff (n : List Char) :
    ∀ h : List Char, containsSub n h = true ↔ ∃ x y, h = x ++ n ++ y := by
  intro h
  induction h with
  | nil =>
    simp only [containsSub, List.isEmpty_iff]
    constructor
    · intro he
      exact ⟨[], [], by simp [he]⟩
    · rintro ⟨x, y, hxy⟩
      rcases List.append_eq_nil.mp (List.append_eq_nil.mp hxy.symm).1 with ⟨_, h2⟩
      exact h2
  | cons a t ih =>
    simp only [containsSub, Bool.or_eq_true, List.isPrefixOf_iff_prefix]
    constructor
    · rintro (⟨y, hy⟩ | hc)
      · exact ⟨[], y, by simp [← hy]⟩
      · rcases ih.mp hc with ⟨x, y, hxy⟩
        exact ⟨a :: x, y, by simp [hxy]⟩
    · rintro ⟨x, y, hxy⟩
      cases x with
      | nil =>
        left
        exact ⟨y, by simpa using hxy.symm⟩
      | cons b bs =>
        right
        apply ih.mpr
        refine ⟨bs, y, ?_⟩
        have := hxy
        simp only [List.cons_append, List.cons.injEq, List.append_assoc] at this
        rw [List.append_assoc]
        exact this.2

theorem containsSub_trans (a b c : List Char) (h1 : containsSub a b = true)
    (h2 : containsSub b c = true) : containsSub a c = true := by
  rcases (containsSub_iff a b).mp h1 with ⟨x1, y1, he1⟩
  rcases (containsSub_iff b c).mp h2 with ⟨x2, y2, he2⟩
  apply (containsSub_iff a c).mpr
  exact ⟨x2 ++ x1, y1 ++ y2, by simp [he2, he1]⟩

/-- The ordered error-code table of `routes._error_code_from_message`
(a Python `dict` literal iterated in insertion order). -/
def codeMapping : List (String × String) := [
  ("originhash mismatch", "AP2_ORIGIN_MISMATCH"),
  ("resource mismatch", "AP2_RESOURCE_MISMATCH"),
  ("network mismatch", "AP2_NETWORK_MISMATCH"),
  ("payto mismatch", "AP2_PAYTO_MISMATCH"),
  ("asset mismatch", "AP2_ASSET_MISMATCH"),
  ("notbefore not reached", "AP2_TTL_NOT_BEFORE"),
  ("notafter passed", "AP2_TTL_EXPIRED"),
  ("exp passed", "AP2_TTL_EXPIRED"),
  ("paymenthash mismatch", "AP2_PAYMENT_HASH_MISMATCH"),
  ("merchant identity not accepted", "AP2_MERCHANT_DENIED"),
  ("eip-712 verification unavailable", "AP2_SIG_UNAVAILABLE"),
  ("eip-712 signature invalid", "AP2_SIG_INVALID"),
  ("signer != payer", "AP2_SIG_PAYER_MISMATCH"),
  ("missing ap2 evidence", "AP2_EVIDENCE_MISSING"),
  ("invalid ap2 evidence", "AP2_EVIDENCE_INVALID"),
  ("unsupported network", "AP2_CHAIN_UNSUPPORTED"),
  ("x-payment-secure", "TRACE_HEADER_INVALID"),
  ("traceparent", "TRACE_HEADER_INVALID"),
  ("x-risk-session", "RISK_SESSION_INVALID"),
  ("x-risk-trace", "RISK_TRACE_INVALID"),
  ("x-ap2-evidence", "EVIDENCE_HEADER_INVALID"),
  ("unsupported x-payment-secure version", "TRACE_HEADER_UNSUPPORTED"),
  ("unsupported x-ap2-evidence version", "EVIDENCE_HEADER_UNSUPPORTED"),
  ("risk denied", "RISK_DENIED"),
  ("risk review", "RISK_REVIEW")]

/-- The lookup loop: first key (in table order) contained in the
lowercased message wins; fallback `UNSPECIFIED`. -/
def findCode (m : List Char) : List (String × String) → String
  | [] => "UNSPECIFIED"
  | (k, v) :: rest => if containsSub k.data m then v else findCode m rest

/-- `routes._error_code_from_message`. -/
def error_code_from_message (msg : List Char) : String :=
  findCode (msg.map Char.toLower) codeMapping

/-- If every table entry carrying the code `bad` has a key that does not
occur in the message, `findCode` cannot return `bad`. -/
theorem findCode_ne_of_blocked (m : List Char) (bad : String)
    (hbad : bad ≠ "UNSPECIFIED") :
    ∀ table : List (String × String),
      (∀ kv ∈ table, kv.2 = bad → containsSub kv.1.data m = false) →
      findCode m table ≠ bad := by
  intro table
  induction table with
  | nil =>
    intro _
    simp only [findCode]
    exact fun h => hbad h.symm
  | cons kv rest ih =>
    intro hall
    rcases kv with ⟨k, v⟩
    simp only [findCode]
    by_cases hm : containsSub k.data m = true
    · rw [if_pos hm]
      intro hv
      have := hall (k, v) (List.mem_cons_self _ _) hv
      rw [hm] at this
      cases this
    · rw [if_neg hm]
      exact ih (fun kv h hv => hall kv (List.mem_cons_of_mem _ h) hv)

/-- If some entry of the first table part matches, the lookup never
reaches the second part, and its result is a code of the first part. -/
theorem findCode_append_of_match (m : List Char) :
    ∀ t₁ t₂ : List (String × String), (∃ kv ∈ t₁, containsSub kv.1.data m = true) →
      findCode m (t₁ ++ t₂) = findCode m t₁ ∧ findCode m t₁ ∈ t₁.map Prod.snd := by
  intro t₁
  induction t₁ with
  | nil =>
    rintro t₂ ⟨kv, h, _⟩
    simp at h
  | cons kv rest ih =>
    rintro t₂ ⟨kv0, hmem, hmatch⟩
    rcases kv with ⟨k, v⟩
    simp only [List.cons_append, findCode]
    by_cases hm : containsSub k.data m = true
    · rw [if_pos hm, if_pos hm]
      exact ⟨rfl, by simp⟩
    · rw [if_neg hm, if_neg hm]
      have hrest : ∃ kv ∈ rest, containsSub kv.1.data m = true := by
        rcases List.mem_cons.mp hmem with he | he
        · subst he; exact absurd hmatch hm
        · exact ⟨kv0, he, hmatch⟩
      refine ⟨(ih t₂ hrest).1, ?_⟩
      simpa using Or.inr ((List.mem_map).mp ((ih t₂ hrest).2))

/-- The first seventeen entries of the table, up to and including the
`x-payment-secure` entry. -/
def codeMappingA : List (String × String) := [
  ("originhash mismatch", "AP2_ORIGIN_MISMATCH"),
  ("resource mismatch", "AP2_RESOURCE_MISMATCH"),
  ("network mismatch", "AP2_NETWORK_MISMATCH"),
  ("payto mismatch", "AP2_PAYTO_MISMATCH"),
  ("asset mismatch", "AP2_ASSET_MISMATCH"),
  ("notbefore not reached", "AP2_TTL_NOT_BEFORE"),
  ("notafter passed", "AP2_TTL_EXPIRED"),
  ("exp passed", "AP2_TTL_EXPIRED"),
  ("paymenthash mismatch", "AP2_PAYMENT_HASH_MISMATCH"),
  ("merchant identity not accepted", "AP2_MERCHANT_DENIED"),
  ("eip-712 verification unavailable", "AP2_SIG_UNAVAILABLE"),
  ("eip-712 signature invalid", "AP2_SIG_INVALID"),
  ("signer != payer", "AP2_SIG_PAYER_MISMATCH"),
  ("missing ap2 evidence", "AP2_EVIDENCE_MISSING"),
  ("invalid ap2 evidence", "AP2_EVIDENCE_INVALID"),
  ("unsupported network", "AP2_CHAIN_UNSUPPORTED"),
  ("x-payment-secure", "TRACE_HEADER_INVALID")]

/-- Entries up to and including the `x-ap2-evidence` entry. -/
def codeMappingC : List (String × String) := codeMappingA ++ [
  ("traceparent", "TRACE_HEADER_INVALID"),
  ("x-risk-session", "RISK_SESSION_INVALID"),
  ("x-risk-trace", "RISK_TRACE_INVALID"),
  ("x-ap2-evidence", "EVIDENCE_HEADER_INVALID")]

theorem codeMappingA_split :
    codeMapping = codeMappingA ++ [
      ("traceparent", "TRACE_HEADER_INVALID"),
      ("x-risk-session", "RISK_SESSION_INVALID"),
      ("x-risk-trace", "RISK_TRACE_INVALID"),
      ("x-ap2-evidence", "EVIDENCE_HEADER_INVALID"),
      ("unsupported x-payment-secure version", "TRACE_HEADER_UNSUPPORTED"),
      ("unsupported x-ap2-evidence version", "EVIDENCE_HEADER_UNSUPPORTED"),
      ("risk denied", "RISK_DENIED"),
      ("risk review", "RISK_REVIEW")] := rfl

theorem codeMappingC_split :
    codeMapping = codeMappingC ++ [
      ("unsupported x-payment-secure version", "TRACE_HEADER_UNSUPPORTED"),
      ("unsupported x-ap2-evidence version", "EVIDENCE_HEADER_UNSUPPORTED"),
      ("risk denied", "RISK_DENIED"),
      ("risk review", "RISK_REVIEW")] := rfl

theorem findCode_ne_trace_unsupported (m : List Char) :
    findCode m codeMapping ≠ "TRACE_HEADER_UNSUPPORTED" := by
  by_cases h17 : containsSub "x-payment-secure".data m = true
  · rcases findCode_append_of_match m codeMappingA _
      ⟨("x-payment-secure", "TRACE_HEADER_INVALID"), by decide, h17⟩ with ⟨heq, hmem⟩
    rw [codeMappingA_split, heq]
    intro hc
    rw [hc] at hmem
    exact absurd hmem (by decide)
  · apply findCode_ne_of_blocked m _ (by decide)
    intro kv hkv hv
    simp only [codeMapping, List.mem_cons, List.not_mem_nil, or_false] at hkv
    rcases hkv with rfl|rfl|rfl|rfl|rfl|rfl|rfl|rfl|rfl|rfl|rfl|rfl|rfl|rfl|rfl|rfl|rfl|rfl|rfl|rfl|rfl|rfl|rfl|rfl|rfl <;>
      first
        | (exact absurd hv (by decide))
        | (by_contra hc
           exact h17 (containsSub_trans "x-payment-secure".data
             "unsupported x-payment-secure version".data m (by decide)
             (by revert hc; simp)))

theorem findCode_ne_evidence_unsupported (m : List Char) :
    findCode m codeMapping ≠ "EVIDENCE_HEADER_UNSUPPORTED" := by
  by_cases h21 : containsSub "x-ap2-evidence".data m = true
  · rcases findCode_append_of_match m codeMappingC _
      ⟨("x-ap2-evidence", "EVIDENCE_HEADER_INVALID"), by decide, h21⟩ with ⟨heq, hmem⟩
    rw [codeMappingC_split, heq]
    intro hc
    rw [hc] at hmem
    exact absurd hmem (by decide)
  · apply findCode_ne_of_blocked m _ (by decide)
    intro kv hkv hv
    simp only [codeMapping, List.mem_cons, List.not_mem_nil, or_false] at hkv
    rcases hkv with rfl|rfl|rfl|rfl|rfl|rfl|rfl|rfl|rfl|rfl|rfl|rfl|rfl|rfl|rfl|rfl|rfl|rfl|rfl|rfl|rfl|rfl|rfl|rfl|rfl <;>
      first
        | (exact absurd hv (by decide))
        | (by_contra hc
           exact h21 (containsSub_trans "x-ap2-evidence".data
             "unsupported x-ap2-evidence version".data m (by decide)
             (by revert hc; simp)))

set_option maxHeartbeats 1600000 in
/-- C10: the error-code lookup scans the table in written order and
returns the first key contained in the lowercased message (else
`UNSPECIFIED`); since `x-payment-secure` precedes
`unsupported x-payment-secure version` and `x-ap2-evidence` precedes
`unsupported x-ap2-evidence version`, the codes
`TRACE_HEADER_UNSUPPORTED` and `EVIDENCE_HEADER_UNSUPPORTED` are
unreachable for every message; in particular the parsers' version
mismatch messages map to `TRACE_HEADER_INVALID` and
`EVIDENCE_HEADER_INVALID`. -/
theorem c10_error_code_mapping :
    (∀ msg : List Char,
      error_code_from_message msg ≠ "TRACE_HEADER_UNSUPPORTED" ∧
      error_code_from_message msg ≠ "EVIDENCE_HEADER_UNSUPPORTED") ∧
    error_code_from_message "Unsupported X-PAYMENT-SECURE version".data =
      "TRACE_HEADER_INVALID" ∧
    error_code_from_message "Unsupported X-AP2-EVIDENCE version".data =
      "EVIDENCE_HEADER_INVALID" := by
  refine ⟨?_, by rfl, by rfl⟩
  intro msg
  exact ⟨findCode_ne_trace_unsupported (msg.map Char.toLower),
    findCode_ne_evidence_unsupported (msg.map Char.toLower)⟩

/-! ### JSON values and the risk data model (`risk_routes.py`) -/

/-- JSON values as produced by Python `json` / pydantic `model_dump`.
Numbers are restricted to integers, which is all the gateway handles. -/
inductive J where
  | null
  | bool (b : Bool)
  | num (n : Int)
  | str (s : String)
  | arr (xs : List J)
  | obj (fields : List (String × J))

/-- Modelled from the spec: `routes.py` imports a `Decision` enum from
`risk_routes`, whose definition is not present in the source tree; the
spec's RiskDecision entity fixes `decision ∈ (allow, deny, review)`,
serialized by its string value. -/
inductive Decision where
  | allow
  | deny
  | review
deriving DecidableEq

/-- The string serialization of a decision (`decision.value`). -/
def Decision.value : Decision → String
  | .allow => "allow"
  | .deny => "deny"
  | .review => "review"

/-- `risk_routes.RiskLevel`. -/
inductive RiskLevel where
  | high
  | medium
  | low
deriving DecidableEq

/-- `risk_routes.MandateMeta`. -/
structure MandateMeta where
  ref : String
  sha256_b64url : String
  mime : String
  size : Int
deriving DecidableEq

/-- `risk_routes.TraceContext`. -/
structure TraceContext where
  tp : String
  ts : Option String
deriving DecidableEq

/-- `risk_routes.EvaluateRequest`. -/
structure EvaluateRequest where
  sid : String
  tid : Option String
  trace_context : TraceContext
  mandate : Option MandateMeta
  payment : Option J

/-- `risk_routes.EvaluateResponse`, with `decision` at the enum type
(see `Decision`). -/
structure EvaluateResponse where
  decision : Decision
  reasons : List String
  decision_id : String
  ttl_seconds : Nat
  used_mandate : Bool
  warnings : List String
  risk_level : RiskLevel
  extra : List (String × J)

/-- A stored risk session (`_LocalStore.sessions` entry). -/
structure SessionRec where
  agent_did : String
  app_id : Option String
  device : Option J

/-- A stored trace (`_LocalStore.traces` entry). -/
structure TraceRec where
  sid : String
  fingerprint : Option J
  telemetry : Option J
  agent_trace : Option J

/-- `_LocalStore`: the two in-memory maps (TTL eviction is a property
of the `TTLCache` container, not of the lookup logic modelled here). -/
structure LocalStore where
  sessions : List (String × SessionRec)
  traces : List (String × TraceRec)

/-- Python truthiness of an optional string (`if req.tid:`). -/
def pyTruthy (o : Option String) : Bool :=
  match o with
  | none => false
  | some t => t ≠ ""

/-- The response built at the end of `_LocalStore.evaluate`:
`EvaluateResponse(decision="allow", reasons=[], decision_id=uuid4(),
ttl_seconds=300, used_mandate=bool(req.mandate), warnings=[],
risk_level=low, extra=dict())`.  The fresh uuid is passed in. -/
def allowResponse (req : EvaluateRequest) (freshId : String) : EvaluateResponse :=
  ⟨Decision.allow, [], freshId, 300, req.mandate.isSome, [], RiskLevel.low, []⟩

/-- `risk_routes._LocalStore.evaluate`, embedded from the source. -/
def LocalStore.evaluate (st : LocalStore) (req : EvaluateRequest) (freshId : String) :
    Except (Nat × String) EvaluateResponse :=
  match st.sessions.lookup req.sid with
  | none => .error (404, "unknown sid")
  | some _ =>
    match req.tid with
    | none => .ok (allowResponse req freshId)
    | some t =>
      if t = "" then .ok (allowResponse req freshId)
      else
        match st.traces.lookup t with
        | none => .error (404, "unknown tid")
        | some tr =>
          if tr.sid ≠ req.sid then .error (400, "tid not linked to sid")
          else .ok (allowResponse req freshId)

/-- C5: in local mode, `evaluate` rejects an unknown `sid` with 404
`unknown sid`; with a (truthy) `tid` supplied it rejects an absent `tid`
with 404 `unknown tid` and answers 400 `tid not linked to sid` exactly
when the stored trace's `sid` differs from the request `sid`; every
request passing these checks gets decision `allow`, `risk_level = low`,
`used_mandate = (mandate present)` and the fresh `decision_id`. -/
theorem c5_local_evaluate (st : LocalStore) (req : EvaluateRequest) (fid : String) :
    (st.sessions.lookup req.sid = none →
      LocalStore.evaluate st req fid = .error (404, "unknown sid")) ∧
    (st.sessions.lookup req.sid ≠ none → ∀ t, req.tid = some t → t ≠ "" →
      st.traces.lookup t = none →
      LocalStore.evaluate st req fid = .error (404, "unknown tid")) ∧
    (st.sessions.lookup req.sid ≠ none → ∀ t, req.tid = some t → t ≠ "" →
      ∀ tr, st.traces.lookup t = some tr →
      (LocalStore.evaluate st req fid = .error (400, "tid not linked to sid") ↔
        tr.sid ≠ req.sid)) ∧
    (st.sessions.lookup req.sid ≠ none →
      (pyTruthy req.tid = false ∨
        (∃ t tr, req.tid = some t ∧ st.traces.lookup t = some tr ∧ tr.sid = req.sid)) →
      LocalStore.evaluate st req fid =
        .ok ⟨Decision.allow, [], fid, 300, req.mandate.isSome, [], RiskLevel.low, []⟩) := by
  refine ⟨?_, ?_, ?_, ?_⟩
  · intro hsid
    unfold LocalStore.evaluate
    rw [hsid]
  · intro hsid t ht htne htr
    obtain ⟨sess, hsess⟩ := Option.ne_none_iff_exists'.mp hsid
    unfold LocalStore.evaluate
    rw [hsess, ht]
    dsimp only
    rw [if_neg htne, htr]
  · intro hsid t ht htne tr htr
    obtain ⟨sess, hsess⟩ := Option.ne_none_iff_exists'.mp hsid
    unfold LocalStore.evaluate
    rw [hsess, ht]
    dsimp only
    rw [if_neg htne, htr]
    dsimp only
    by_cases hmm : tr.sid ≠ req.sid
    · rw [if_pos hmm]
      simp [hmm]
    · rw [if_neg hmm]
      simp [hmm]
  · intro hsid hpass
    obtain ⟨sess, hsess⟩ := Option.ne_none_iff_exists'.mp hsid
    unfold LocalStore.evaluate
    rw [hsess]
    rcases hpass with hfalse | ⟨t, tr, ht, htr, hlink⟩
    · cases hv : req.tid with
      | none => rfl
      | some t =>
        rw [hv] at hfalse
        have hte : t = "" := by simpa [pyTruthy] using hfalse
        dsimp only
        rw [if_pos hte]
        rfl
    · rw [ht]
      dsimp only
      by_cases hempty : t = ""
      · rw [if_pos hempty]
        rfl
      · rw [if_neg hempty, htr]
        dsimp only
        rw [if_neg (by simp [hlink])]
        rfl

/-- Witness for `c5_local_evaluate`: a two-session store where the
trace belongs to the other session (400), then a linked trace (allow). -/
theorem c5_local_evaluate_witness :
    (LocalStore.evaluate
      ⟨[("s1", ⟨"0xabc", none, none⟩), ("s2", ⟨"0xdef", none, none⟩)],
       [("t1", ⟨"s2", none, none, none⟩)]⟩
      ⟨"s1", some "t1", ⟨"00-aa-bb-01", none⟩, none, none⟩ "fresh-1" =
      .error (400, "tid not linked to sid")) ∧
    (LocalStore.evaluate
      ⟨[("s1", ⟨"0xabc", none, none⟩)], [("t1", ⟨"s1", none, none, none⟩)]⟩
      ⟨"s1", some "t1", ⟨"00-aa-bb-01", none⟩,
        some ⟨"ref", "digest", "application/json", 42⟩, none⟩ "fresh-2" =
      .ok ⟨Decision.allow, [], "fresh-2", 300, true, [], RiskLevel.low, []⟩) := by
  constructor
  · have h := (c5_local_evaluate
      ⟨[("s1", ⟨"0xabc", none, none⟩), ("s2", ⟨"0xdef", none, none⟩)],
       [("t1", ⟨"s2", none, none, none⟩)]⟩
      ⟨"s1", some "t1", ⟨"00-aa-bb-01", none⟩, none, none⟩ "fresh-1").2.2.1
    exact (h (fun hc => Option.noConfusion
        (show (some (⟨"0xabc", none, none⟩ : SessionRec) : Option SessionRec) = none from hc))
      "t1" rfl (by decide) ⟨"s2", none, none, none⟩ rfl).mpr (by decide)
  · have h := (c5_local_evaluate
      ⟨[("s1", ⟨"0xabc", none, none⟩)], [("t1", ⟨"s1", none, none, none⟩)]⟩
      ⟨"s1", some "t1", ⟨"00-aa-bb-01", none⟩,
        some ⟨"ref", "digest", "application/json", 42⟩, none⟩ "fresh-2").2.2.2
    exact h (fun hc => Option.noConfusion
        (show (some (⟨"0xabc", none, none⟩ : SessionRec) : Option SessionRec) = none from hc))
      (Or.inr ⟨"t1", ⟨"s1", none, none, none⟩, rfl, rfl, rfl⟩)

/-! ### SHA-256 and Keccak-256 over byte lists -/

/-- 32-bit right rotation. -/
def rotr32 (x n : Nat) : Nat :=
  ((x >>> n) ||| (x <<< (32 - n))) % 4294967296

/-- SHA-256 round constants. -/
def shaK : List Nat := [
  1116352408, 1899447441, 3049323471, 3921009573,
  961987163, 1508970993, 2453635748, 2870763221,
  3624381080, 310598401, 607225278, 1426881987,
  1925078388, 2162078206, 2614888103, 3248222580,
  3835390401, 4022224774, 264347078, 604807628,
  770255983, 1249150122, 1555081692, 1996064986,
  2554220882, 2821834349, 2952996808, 3210313671,
  3336571891, 3584528711, 113926993, 338241895,
  666307205, 773529912, 1294757372, 1396182291,
  1695183700, 1986661051, 2177026350, 2456956037,
  2730485921, 2820302411, 3259730800, 3345764771,
  3516065817, 3600352804, 4094571909, 275423344,
  430227734, 506948616, 659060556, 883997877,
  958139571, 1322822218, 1537002063, 1747873779,
  1955562222, 2024104815, 2227730452, 2361852424,
  2428436474, 2756734187, 3204031479, 3329325298]

/-- Big-endian 8-byte encoding. -/
def be64 (n : Nat) : List Nat :=
  [(n >>> 56) % 256, (n >>> 48) % 256, (n >>> 40) % 256, (n >>> 32) % 256,
   (n >>> 24) % 256, (n >>> 16) % 256, (n >>> 8) % 256, n % 256]

/-- SHA-256 message padding. -/
def shaPad (msg : List Nat) : List Nat :=
  let z := (64 - ((msg.length + 9) % 64)) % 64
  msg ++ 128 :: (List.replicate z 0 ++ be64 (8 * msg.length))

/-- Split into 64-byte chunks (fuel-driven structural recursion). -/
def chunksOf (n : Nat) : Nat → List Nat → List (List Nat)
  | 0, _ => []
  | _, [] => []
  | fuel + 1, l => l.take n :: chunksOf n fuel (l.drop n)

/-- Group bytes into big-endian 32-bit words. -/
def bytesToWords32 : List Nat → List Nat
  | b0 :: b1 :: b2 :: b3 :: rest =>
    (((b0 * 256 + b1) * 256 + b2) * 256 + b3) :: bytesToWords32 rest
  | _ => []

def shaSmallSigma0 (x : Nat) : Nat := (rotr32 x 7) ^^^ (rotr32 x 18) ^^^ (x >>> 3)

def shaSmallSigma1 (x : Nat) : Nat := (rotr32 x 17) ^^^ (rotr32 x 19) ^^^ (x >>> 10)

/-- Extend the 16 message words to 64. -/
def shaExtend : Nat → List Nat → List Nat
  | 0, acc => acc
  | n + 1, acc =>
    let k := acc.length
    let w16 := (acc.get? (k - 16)).getD 0
    let w15 := (acc.get? (k - 15)).getD 0
    let w7 := (acc.get? (k - 7)).getD 0
    let w2 := (acc.get? (k - 2)).getD 0
    shaExtend n
      (acc ++ [(shaSmallSigma1 w2 + w7 + shaSmallSigma0 w15 + w16) % 4294967296])

/-- SHA-256 working state. -/
structure Sha8 where
  a : Nat
  b : Nat
  c : Nat
  d : Nat
  e : Nat
  f : Nat
  g : Nat
  h : Nat

/-- The 64-step compression loop. -/
def shaComp : List (Nat × Nat) → Sha8 → Sha8
  | [], st => st
  | (k, w) :: rest, ⟨a, b, c, d, e, f, g, h⟩ =>
    let bigS1 := (rotr32 e 6) ^^^ (rotr32 e 11) ^^^ (rotr32 e 25)
    let ch := (e &&& f) ^^^ ((e ^^^ 4294967295) &&& g)
    let t1 := (h + bigS1 + ch + k + w) % 4294967296
    let bigS0 := (rotr32 a 2) ^^^ (rotr32 a 13) ^^^ (rotr32 a 22)
    let mj := (a &&& b) ^^^ (a &&& c) ^^^ (b &&& c)
    let t2 := (bigS0 + mj) % 4294967296
    shaComp rest ⟨(t1 + t2) % 4294967296, a, b, c, (d + t1) % 4294967296, e, f, g⟩

/-- One 64-byte block. -/
def shaBlock (st : Sha8) (block : List Nat) : Sha8 :=
  let w := shaExtend 48 (bytesToWords32 block)
  let r := shaComp (shaK.zip w) st
  ⟨(st.a + r.a) % 4294967296, (st.b + r.b) % 4294967296,
   (st.c + r.c) % 4294967296, (st.d + r.d) % 4294967296,
   (st.e + r.e) % 4294967296, (st.f + r.f) % 4294967296,
   (st.g + r.g) % 4294967296, (st.h + r.h) % 4294967296⟩

/-- 32-bit word to big-endian bytes. -/
def be32 (n : Nat) : List Nat :=
  [(n >>> 24) % 256, (n >>> 16) % 256, (n >>> 8) % 256, n % 256]

/-- `hashlib.sha256(...).digest()`: SHA-256 of a byte string. -/
def sha256 (msg : List Nat) : List Nat :=
  let padded := shaPad msg
  let st := (chunksOf 64 padded.length padded).foldl shaBlock
    ⟨1779033703, 3144134277, 1013904242, 2773480762,
     1359893119, 2600822924, 528734635, 1541459225⟩
  be32 st.a ++ be32 st.b ++ be32 st.c ++ be32 st.d ++
    be32 st.e ++ be32 st.f ++ be32 st.g ++ be32 st.h

/-- 64-bit left rotation. -/
def rotl64 (x n : Nat) : Nat :=
  ((x <<< n) ||| (x >>> (64 - n))) % 18446744073709551616

/-- Keccak-f[1600] state: 25 64-bit lanes, lane `(x, y)` at `s(x+5*y)`. -/
structure KState where
  s0 : Nat
  s1 : Nat
  s2 : Nat
  s3 : Nat
  s4 : Nat
  s5 : Nat
  s6 : Nat
  s7 : Nat
  s8 : Nat
  s9 : Nat
  s10 : Nat
  s11 : Nat
  s12 : Nat
  s13 : Nat
  s14 : Nat
  s15 : Nat
  s16 : Nat
  s17 : Nat
  s18 : Nat
  s19 : Nat
  s20 : Nat
  s21 : Nat
  s22 : Nat
  s23 : Nat
  s24 : Nat

/-- One Keccak-f[1600] round (state lanes `s0..s24`, lane index `x + 5*y`). -/
def keccakRound (st : KState) (rc : Nat) : KState :=
  let c0 := st.s0 ^^^ st.s5 ^^^ st.s10 ^^^ st.s15 ^^^ st.s20
  let c1 := st.s1 ^^^ st.s6 ^^^ st.s11 ^^^ st.s16 ^^^ st.s21
  let c2 := st.s2 ^^^ st.s7 ^^^ st.s12 ^^^ st.s17 ^^^ st.s22
  let c3 := st.s3 ^^^ st.s8 ^^^ st.s13 ^^^ st.s18 ^^^ st.s23
  let c4 := st.s4 ^^^ st.s9 ^^^ st.s14 ^^^ st.s19 ^^^ st.s24
  let d0 := c4 ^^^ rotl64 c1 1
  let d1 := c0 ^^^ rotl64 c2 1
  let d2 := c1 ^^^ rotl64 c3 1
  let d3 := c2 ^^^ rotl64 c4 1
  let d4 := c3 ^^^ rotl64 c0 1
  let t0 := st.s0 ^^^ d0
  let t1 := st.s1 ^^^ d1
  let t2 := st.s2 ^^^ d2
  let t3 := st.s3 ^^^ d3
  let t4 := st.s4 ^^^ d4
  let t5 := st.s5 ^^^ d0
  let t6 := st.s6 ^^^ d1
  let t7 := st.s7 ^^^ d2
  let t8 := st.s8 ^^^ d3
  let t9 := st.s9 ^^^ d4
  let t10 := st.s10 ^^^ d0
  let t11 := st.s11 ^^^ d1
  let t12 := st.s12 ^^^ d2
  let t13 := st.s13 ^^^ d3
  let t14 := st.s14 ^^^ d4
  let t15 := st.s15 ^^^ d0
  let t16 := st.s16 ^^^ d1
  let t17 := st.s17 ^^^ d2
  let t18 := st.s18 ^^^ d3
  let t19 := st.s19 ^^^ d4
  let t20 := st.s20 ^^^ d0
  let t21 := st.s21 ^^^ d1
  let t22 := st.s22 ^^^ d2
  let t23 := st.s23 ^^^ d3
  let t24 := st.s24 ^^^ d4
  let b0 := rotl64 t0 0
  let b10 := rotl64 t1 1
  let b20 := rotl64 t2 62
  let b5 := rotl64 t3 28
  let b15 := rotl64 t4 27
  let b16 := rotl64 t5 36
  let b1 := rotl64 t6 44
  let b11 := rotl64 t7 6
  let b21 := rotl64 t8 55
  let b6 := rotl64 t9 20
  let b7 := rotl64 t10 3
  let b17 := rotl64 t11 10
  let b2 := rotl64 t12 43
  let b12 := rotl64 t13 25
  let b22 := rotl64 t14 39
  let b23 := rotl64 t15 41
  let b8 := rotl64 t16 45
  let b18 := rotl64 t17 15
  let b3 := rotl64 t18 21
  let b13 := rotl64 t19 8
  let b14 := rotl64 t20 18
  let b24 := rotl64 t21 2
  let b9 := rotl64 t22 61
  let b19 := rotl64 t23 56
  let b4 := rotl64 t24 14
  let a0 := b0 ^^^ ((b1 ^^^ 18446744073709551615) &&& b2)
  let a1 := b1 ^^^ ((b2 ^^^ 18446744073709551615) &&& b3)
  let a2 := b2 ^^^ ((b3 ^^^ 18446744073709551615) &&& b4)
  let a3 := b3 ^^^ ((b4 ^^^ 18446744073709551615) &&& b0)
  let a4 := b4 ^^^ ((b0 ^^^ 18446744073709551615) &&& b1)
  let a5 := b5 ^^^ ((b6 ^^^ 18446744073709551615) &&& b7)
  let a6 := b6 ^^^ ((b7 ^^^ 18446744073709551615) &&& b8)
  let a7 := b7 ^^^ ((b8 ^^^ 18446744073709551615) &&& b9)
  let a8 := b8 ^^^ ((b9 ^^^ 18446744073709551615) &&& b5)
  let a9 := b9 ^^^ ((b5 ^^^ 18446744073709551615) &&& b6)
  let a10 := b10 ^^^ ((b11 ^^^ 18446744073709551615) &&& b12)
  let a11 := b11 ^^^ ((b12 ^^^ 18446744073709551615) &&& b13)
  let a12 := b12 ^^^ ((b13 ^^^ 18446744073709551615) &&& b14)
  let a13 := b13 ^^^ ((b14 ^^^ 18446744073709551615) &&& b10)
  let a14 := b14 ^^^ ((b10 ^^^ 18446744073709551615) &&& b11)
  let a15 := b15 ^^^ ((b16 ^^^ 18446744073709551615) &&& b17)
  let a16 := b16 ^^^ ((b17 ^^^ 18446744073709551615) &&& b18)
  let a17 := b17 ^^^ ((b18 ^^^ 18446744073709551615) &&& b19)
  let a18 := b18 ^^^ ((b19 ^^^ 18446744073709551615) &&& b15)
  let a19 := b19 ^^^ ((b15 ^^^ 18446744073709551615) &&& b16)
  let a20 := b20 ^^^ ((b21 ^^^ 18446744073709551615) &&& b22)
  let a21 := b21 ^^^ ((b22 ^^^ 18446744073709551615) &&& b23)
  let a22 := b22 ^^^ ((b23 ^^^ 18446744073709551615) &&& b24)
  let a23 := b23 ^^^ ((b24 ^^^ 18446744073709551615) &&& b20)
  let a24 := b24 ^^^ ((b20 ^^^ 18446744073709551615) &&& b21)
  ⟨a0 ^^^ rc, a1, a2, a3, a4, a5, a6, a7, a8, a9, a10, a11, a12, a13, a14, a15, a16, a17, a18, a19, a20, a21, a22, a23, a24⟩

/-- Keccak round constants. -/
def keccakRC : List Nat := [
  0x0000000000000001, 0x0000000000008082, 0x800000000000808a, 0x8000000080008000,
  0x000000000000808b, 0x0000000080000001, 0x8000000080008081, 0x8000000000008009,
  0x000000000000008a, 0x0000000000000088, 0x0000000080008009, 0x000000008000000a,
  0x000000008000808b, 0x800000000000008b, 0x8000000000008089, 0x8000000000008003,
  0x8000000000008002, 0x8000000000000080, 0x000000000000800a, 0x800000008000000a,
  0x8000000080008081, 0x8000000000008080, 0x0000000080000001, 0x8000000080008008]

def keccakPermute (st : KState) : KState :=
  keccakRC.foldl keccakRound st

/-- Little-endian interpretation of (up to) 8 bytes as a lane. -/
def leLane : List Nat → Nat
  | [] => 0
  | b :: rest => b + 256 * leLane rest

/-- Lane to 8 little-endian bytes. -/
def leBytes8 (n : Nat) : List Nat :=
  [n % 256, (n >>> 8) % 256, (n >>> 16) % 256, (n >>> 24) % 256,
   (n >>> 32) % 256, (n >>> 40) % 256, (n >>> 48) % 256, (n >>> 56) % 256]

/-- Keccak (pre-SHA-3, `0x01` domain) padding at rate 136. -/
def keccakPad (msg : List Nat) : List Nat :=
  let q := 136 - (msg.length % 136)
  if q = 1 then msg ++ [0x81]
  else msg ++ 0x01 :: (List.replicate (q - 2) 0 ++ [0x80])

/-- Absorb one 136-byte block into the first 17 lanes (little-endian). -/
def keccakAbsorb (st : KState) (block : List Nat) : KState :=
  let lane := fun i => leLane ((block.drop (8 * i)).take 8)
  keccakPermute
    { st with
      s0 := st.s0 ^^^ lane 0, s1 := st.s1 ^^^ lane 1, s2 := st.s2 ^^^ lane 2,
      s3 := st.s3 ^^^ lane 3, s4 := st.s4 ^^^ lane 4, s5 := st.s5 ^^^ lane 5,
      s6 := st.s6 ^^^ lane 6, s7 := st.s7 ^^^ lane 7, s8 := st.s8 ^^^ lane 8,
      s9 := st.s9 ^^^ lane 9, s10 := st.s10 ^^^ lane 10, s11 := st.s11 ^^^ lane 11,
      s12 := st.s12 ^^^ lane 12, s13 := st.s13 ^^^ lane 13, s14 := st.s14 ^^^ lane 14,
      s15 := st.s15 ^^^ lane 15, s16 := st.s16 ^^^ lane 16 }

/-- `eth_utils.keccak`: Keccak-256 of a byte string. -/
def keccak256 (msg : List Nat) : List Nat :=
  let padded := keccakPad msg
  let st := (chunksOf 136 padded.length padded).foldl keccakAbsorb
    ⟨0, 0, 0, 0, 0, 0, 0, 0, 0, 0, 0, 0, 0, 0, 0, 0, 0, 0, 0, 0, 0, 0, 0, 0, 0⟩
  leBytes8 st.s0 ++ leBytes8 st.s1 ++ leBytes8 st.s2 ++ leBytes8 st.s3

set_option maxHeartbeats 4000000 in
/-- FIPS 180-4 test vector: SHA-256 of `"abc"`. -/
theorem sha256_abc_vector : sha256 [0x61, 0x62, 0x63] =
    [0xba, 0x78, 0x16, 0xbf, 0x8f, 0x01, 0xcf, 0xea, 0x41, 0x41, 0x40, 0xde,
     0x5d, 0xae, 0x22, 0x23, 0xb0, 0x03, 0x61, 0xa3, 0x96, 0x17, 0x7a, 0x9c,
     0xb4, 0x10, 0xff, 0x61, 0xf2, 0x00, 0x15, 0xad] := by decide

set_option maxHeartbeats 4000000 in
/-- Known vector: Keccak-256 of `"abc"`. -/
theorem keccak256_abc_vector : keccak256 [0x61, 0x62, 0x63] =
    [0x4e, 0x03, 0x65, 0x7a, 0xea, 0x45, 0xa9, 0x4f, 0xc7, 0xd4, 0x7b, 0xa8,
     0x26, 0xc8, 0xd6, 0x67, 0xc0, 0xd1, 0xe6, 0xe3, 0x3a, 0x64, 0xa0, 0x36,
     0xec, 0x44, 0xf5, 0x8f, 0xa1, 0x2d, 0x6c, 0x45] := by decide

/-! ### UTF-8, base64, hex, canonical JSON -/

/-- UTF-8 encoding of one scalar value. -/
def utf8Char (c : Char) : List Nat :=
  let n := c.toNat
  if n < 0x80 then [n]
  else if n < 0x800 then [0xC0 ||| (n >>> 6), 0x80 ||| (n &&& 0x3F)]
  else if n < 0x10000 then
    [0xE0 ||| (n >>> 12), 0x80 ||| ((n >>> 6) &&& 0x3F), 0x80 ||| (n &&& 0x3F)]
  else
    [0xF0 ||| (n >>> 18), 0x80 ||| ((n >>> 12) &&& 0x3F),
     0x80 ||| ((n >>> 6) &&& 0x3F), 0x80 ||| (n &&& 0x3F)]

/-- Python `str.encode("utf-8")`. -/
def utf8 (s : List Char) : List Nat := (s.map utf8Char).flatten

/-- UTF-8 continuation byte. -/
def contB (b : Nat) : Bool := decide (0x80 ≤ b ∧ b ≤ 0xBF)

/-- Strict UTF-8 validity (what Python `bytes.decode("utf-8")` accepts:
no overlong forms, no surrogates, max U+10FFFF). -/
def isValidUtf8 : List Nat → Bool
  | [] => true
  | b1 :: rest =>
    if b1 < 0x80 then isValidUtf8 rest
    else if b1 ≤ 0xC1 then false
    else if b1 ≤ 0xDF then
      match rest with
      | b2 :: rest2 => contB b2 && isValidUtf8 rest2
      | [] => false
    else if b1 ≤ 0xEF then
      match rest with
      | b2 :: b3 :: rest3 =>
        (if b1 = 0xE0 then decide (0xA0 ≤ b2 ∧ b2 ≤ 0xBF)
         else if b1 = 0xED then decide (0x80 ≤ b2 ∧ b2 ≤ 0x9F)
         else contB b2) && contB b3 && isValidUtf8 rest3
      | _ => false
    else if b1 ≤ 0xF4 then
      match rest with
      | b2 :: b3 :: b4 :: rest4 =>
        (if b1 = 0xF0 then decide (0x90 ≤ b2 ∧ b2 ≤ 0xBF)
         else if b1 = 0xF4 then decide (0x80 ≤ b2 ∧ b2 ≤ 0x8F)
         else contB b2) && contB b3 && contB b4 && isValidUtf8 rest4
      | _ => false
    else false

/-- Standard base64 alphabet value of one character. -/
def b64CharVal (c : Char) : Option Nat :=
  if 'A' ≤ c ∧ c ≤ 'Z' then some (c.toNat - 65)
  else if 'a' ≤ c ∧ c ≤ 'z' then some (c.toNat - 97 + 26)
  else if '0' ≤ c ∧ c ≤ '9' then some (c.toNat - 48 + 52)
  else if c = '+' then some 62
  else if c = '/' then some 63
  else none

/-- Standard base64 alphabet character for a 6-bit value. -/
def b64Char (v : Nat) : Nat :=
  if v < 26 then 65 + v
  else if v < 52 then 97 + (v - 26)
  else if v < 62 then 48 + (v - 52)
  else if v = 62 then 43
  else 47

/-- `base64.b64encode`: bytes to base64 ASCII bytes (padded, standard
alphabet). -/
def b64encodeBytes : List Nat → List Nat
  | b0 :: b1 :: b2 :: rest =>
    let n := (b0 * 256 + b1) * 256 + b2
    b64Char (n >>> 18) :: b64Char ((n >>> 12) % 64) :: b64Char ((n >>> 6) % 64) ::
      b64Char (n % 64) :: b64encodeBytes rest
  | [b0, b1] =>
    let n := (b0 * 256 + b1) * 16
    [b64Char (n >>> 12), b64Char ((n >>> 6) % 64), b64Char (n % 64), 61]
  | [b0] =>
    let n := b0 * 16
    [b64Char (n >>> 6), b64Char (n % 64), 61, 61]
  | [] => []

/-- Decode whole base64 quads ('=' allowed only as final padding). -/
def b64Quads : List Char → Option (List Nat)
  | [] => some []
  | c0 :: c1 :: c2 :: c3 :: rest =>
    match b64CharVal c0, b64CharVal c1 with
    | some v0, some v1 =>
      if c2 = '=' then
        if c3 = '=' ∧ rest = [] then some [v0 * 4 + v1 / 16] else none
      else
        match b64CharVal c2 with
        | some v2 =>
          if c3 = '=' then
            if rest = [] then some [v0 * 4 + v1 / 16, (v1 % 16) * 16 + v2 / 4]
            else none
          else
            match b64CharVal c3 with
            | some v3 =>
              match b64Quads rest with
              | some tail =>
                some ((v0 * 4 + v1 / 16) :: ((v1 % 16) * 16 + v2 / 4) ::
                  ((v2 % 4) * 64 + v3) :: tail)
              | none => none
            | none => none
        | none => none
    | _, _ => none
  | _ => none

/-- The external `x402.encoding.safe_base64_decode` (documented as a
robust decoder: maps URL-safe characters to the standard alphabet, adds
missing `=` padding, then decodes strictly). -/
def safe_base64_decode (s : List Char) : Option (List Nat) :=
  let s1 := s.map (fun c => if c = '-' then '+' else if c = '_' then '/' else c)
  let s2 := s1 ++ List.replicate ((4 - s1.length % 4) % 4) '='
  b64Quads s2

/-- Hex digit value (both cases), as accepted by `bytes.fromhex`. -/
def hexVal (c : Char) : Option Nat :=
  if '0' ≤ c ∧ c ≤ '9' then some (c.toNat - 48)
  else if 'a' ≤ c ∧ c ≤ 'f' then some (c.toNat - 97 + 10)
  else if 'A' ≤ c ∧ c ≤ 'F' then some (c.toNat - 65 + 10)
  else none

/-- `bytes.fromhex` on an even-length hex string. -/
def hexPairs : List Char → Option (List Nat)
  | [] => some []
  | c1 :: c2 :: rest =>
    match hexVal c1, hexVal c2, hexPairs rest with
    | some v1, some v2, some tail => some ((v1 * 16 + v2) :: tail)
    | _, _, _ => none
  | _ => none

/-- `routes._b32`: strip a `0x` prefix, left-pad with zeros to 64
characters (`zfill`), and parse as hex bytes. -/
def b32 (hexstr : List Char) : Option (List Nat) :=
  let h := match hexstr with
    | '0' :: 'x' :: rest => rest
    | l => l
  let padded := List.replicate (64 - h.length) '0' ++ h
  hexPairs padded

/-- Lexicographic order on strings by code point, as Python compares
`str` for `sort_keys=True`. -/
def charListLt : List Char → List Char → Bool
  | [], [] => false
  | [], _ :: _ => true
  | _ :: _, [] => false
  | a :: as_, b :: bs => if a < b then true else if b < a then false else charListLt as_ bs

def insertByKey (p : String × J) : List (String × J) → List (String × J)
  | [] => [p]
  | q :: rest =>
    if charListLt p.1.data q.1.data then p :: q :: rest else q :: insertByKey p rest

/-- Stable ascending insertion sort on the keys (Python `sorted`). -/
def sortByKey : List (String × J) → List (String × J)
  | [] => []
  | p :: rest => insertByKey p (sortByKey rest)

mutual
/-- Node count of a JSON value (used as a recursion bound ≥ depth). -/
def jcount : J → Nat
  | .null => 1
  | .bool _ => 1
  | .num _ => 1
  | .str _ => 1
  | .arr xs => 1 + jcountL xs
  | .obj fs => 1 + jcountO fs

def jcountL : List J → Nat
  | [] => 0
  | x :: rest => jcount x + jcountL rest

def jcountO : List (String × J) → Nat
  | [] => 0
  | (_, v) :: rest => jcount v + jcountO rest
end

/-- Recursively sort all object keys (fuel-driven; `jcount` supplies
enough fuel). -/
def sortJF : Nat → J → J
  | 0, j => j
  | fuel + 1, j =>
    match j with
    | .arr xs => .arr (xs.map (sortJF fuel))
    | .obj fs => .obj (sortByKey (fs.map (fun kv => (kv.1, sortJF fuel kv.2))))
    | other => other

def sortJ (j : J) : J := sortJF (jcount j) j

/-- Lowercase hex, 4 digits. -/
def hex4 (n : Nat) : List Char :=
  let d := fun v => if v < 10 then Char.ofNat (48 + v) else Char.ofNat (97 + v - 10)
  [d ((n >>> 12) % 16), d ((n >>> 8) % 16), d ((n >>> 4) % 16), d (n % 16)]

/-- JSON string escaping as `json.dumps` (ensure_ascii=False). -/
def jsonEscapeChar (c : Char) : List Char :=
  if c = '"' then ['\\', '"']
  else if c = '\\' then ['\\', '\\']
  else if c = '\n' then ['\\', 'n']
  else if c = '\r' then ['\\', 'r']
  else if c = '\t' then ['\\', 't']
  else if c = '\x08' then ['\\', 'b']
  else if c = '\x0c' then ['\\', 'f']
  else if c.toNat < 0x20 then '\\' :: 'u' :: hex4 c.toNat
  else [c]

def jsonStrLit (s : String) : List Char :=
  '"' :: (s.data.map jsonEscapeChar).flatten ++ ['"']

mutual
/-- Serialization of a (key-sorted) JSON value with
`separators=(",", ":")`: the body of `json.dumps(...)`. -/
def canonJ : J → List Char
  | .null => "null".data
  | .bool true => "true".data
  | .bool false => "false".data
  | .num n => (toString n).data
  | .str s => jsonStrLit s
  | .arr xs => '[' :: canonL xs ++ [']']
  | .obj fs => Char.ofNat 123 :: canonO fs ++ [Char.ofNat 125]

def canonL : List J → List Char
  | [] => []
  | [x] => canonJ x
  | x :: y :: rest => canonJ x ++ ',' :: canonL (y :: rest)

def canonO : List (String × J) → List Char
  | [] => []
  | [(k, v)] => jsonStrLit k ++ ':' :: canonJ v
  | (k, v) :: q :: rest => jsonStrLit k ++ ':' :: canonJ v ++ ',' :: canonO (q :: rest)
end

/-- `json.dumps(obj, separators=(",", ":"), sort_keys=True,
ensure_ascii=False)`. -/
def canonJson (j : J) : List Char := canonJ (sortJ j)

/-- `routes._canon_b64_json`: canonical JSON, UTF-8, base64. -/
def canon_b64_json (j : J) : List Nat := b64encodeBytes (utf8 (canonJson j))

/-! ### `routes.compute_expected_payment_hash` (claim C3) -/

/-- `routes.compute_expected_payment_hash`, embedded from the source:
with `X-PAYMENT` present, decode it (base64, then the str round-trip
through UTF-8) and keccak the DECODED bytes; otherwise keccak the
base64 of the canonical JSON of the payload. -/
def compute_expected_payment_hash (xPayment : Option (List Char)) (payloadObj : J) :
    Except String (List Nat) :=
  match xPayment with
  | some x =>
    match safe_base64_decode x with
    | some bs =>
      if isValidUtf8 bs then .ok (keccak256 bs)
      else .error "Invalid X-PAYMENT header base64"
    | none => .error "Invalid X-PAYMENT header base64"
  | none => .ok (keccak256 (canon_b64_json payloadObj))

/-- `routes.verify_payment_hash_binding` (the evidence's `paymentHash`
field against the expected hash). -/
def verify_payment_hash_binding (evPaymentHash : List Char)
    (xPayment : Option (List Char)) (payloadObj : J) : Except String Unit :=
  match compute_expected_payment_hash xPayment payloadObj with
  | .error e => .error e
  | .ok expected =>
    match b32 evPaymentHash with
    | none => .error "ValueError: non-hexadecimal paymentHash"
    | some h => if h = expected then .ok () else .error "AP2: paymentHash mismatch"

set_option maxHeartbeats 4000000 in
/-- C3 (counterexample): with `X-PAYMENT: "QUJD"` (base64 of `"ABC"`),
the code hashes the DECODED bytes `"ABC"`, not the raw base64 ASCII
bytes `"QUJD"` that the claim prescribes — and the two keccak digests
differ. -/
theorem c3_decoded_not_raw :
    compute_expected_payment_hash (some "QUJD".data) J.null =
      .ok (keccak256 [65, 66, 67]) ∧
    keccak256 [65, 66, 67] ≠ keccak256 (utf8 "QUJD".data) := by
  constructor
  · rfl
  · decide

/-- C3 (amended): with `X-PAYMENT` present the expected payment hash is
keccak256 of the base64-DECODED header bytes (re-encoded through UTF-8,
hence the validity condition); without `X-PAYMENT` it is keccak256 of
`base64(canonical_json(paymentPayload))` with sorted keys, no
whitespace, UTF-8; the binding check passes iff `bytes32(paymentHash)`
equals this expected value. -/
theorem c3_payment_hash_contract :
    (∀ (x : List Char) (p : J) (bs : List Nat),
      safe_base64_decode x = some bs → isValidUtf8 bs = true →
      compute_expected_payment_hash (some x) p = .ok (keccak256 bs)) ∧
    (∀ p : J, compute_expected_payment_hash none p =
      .ok (keccak256 (canon_b64_json p))) ∧
    (∀ (ph : List Char) (x : Option (List Char)) (p : J) (expected : List Nat),
      compute_expected_payment_hash x p = .ok expected →
      (verify_payment_hash_binding ph x p = .ok () ↔ b32 ph = some expected)) := by
  refine ⟨?_, fun p => rfl, ?_⟩
  · intro x p bs hdec hval
    unfold compute_expected_payment_hash
    dsimp only
    rw [hdec]
    dsimp only
    rw [if_pos hval]
  · intro ph x p expected hexp
    unfold verify_payment_hash_binding
    rw [hexp]
    dsimp only
    cases hb : b32 ph with
    | none => simp
    | some h =>
      dsimp only
      by_cases he : h = expected
      · rw [if_pos he, he]
        simp
      · rw [if_neg he]
        simp [he]

set_option maxHeartbeats 4000000 in
/-- Witness for `c3_payment_hash_contract` at `X-PAYMENT = "QUJD"`. -/
theorem c3_payment_hash_contract_witness :
    compute_expected_payment_hash (some "QUJD".data) J.null =
      .ok (keccak256 [65, 66, 67]) ∧
    (verify_payment_hash_binding
      ("0x" ++ String.mk (List.replicate 64 '0')).data
      (some "QUJD".data) J.null = .ok () ↔
      b32 ("0x" ++ String.mk (List.replicate 64 '0')).data =
        some (keccak256 [65, 66, 67])) :=
  ⟨c3_payment_hash_contract.1 "QUJD".data J.null [65, 66, 67] rfl rfl,
   c3_payment_hash_contract.2.2 _ (some "QUJD".data) J.null (keccak256 [65, 66, 67])
     (c3_payment_hash_contract.1 "QUJD".data J.null [65, 66, 67] rfl rfl)⟩

/-! ### `routes.enforce_amount_and_asset` (claim C2) -/

/-- Digit run accepted by Python `int()`: digits with single
underscores strictly between digits. -/
def pyDigitsGo (acc : Nat) : List Char → Option Nat
  | [] => some acc
  | '_' :: c :: rest =>
    if '0' ≤ c ∧ c ≤ '9' then pyDigitsGo (acc * 10 + (c.toNat - 48)) rest else none
  | c :: rest =>
    if '0' ≤ c ∧ c ≤ '9' then pyDigitsGo (acc * 10 + (c.toNat - 48)) rest else none

def pyDigits : List Char → Option Nat
  | c :: rest =>
    if '0' ≤ c ∧ c ≤ '9' then pyDigitsGo (c.toNat - 48) rest else none
  | [] => none

/-- Python `int(str)`: optional surrounding whitespace, optional sign,
decimal digits (underscore separators allowed). -/
def pyInt (s : List Char) : Option Int :=
  match pyStrip s with
  | '+' :: rest => (pyDigits rest).map Int.ofNat
  | '-' :: rest => (pyDigits rest).map (fun n => -(n : Int))
  | rest => (pyDigits rest).map Int.ofNat

/-- Python `int(x)` for a JSON value (`int(None)` etc. raise
`TypeError`, modelled as `none`; `int(True) = 1`). -/
def pyIntOfJ : J → Option Int
  | .str s => pyInt s.data
  | .num n => some n
  | .bool b => some (if b then 1 else 0)
  | _ => none

/-- `pp.get("payload", dict()).get("authorization", dict()).get("value")`
— any missing step or non-dict intermediate makes the wrapped `int(...)`
raise, caught by the `except`, leaving `value = None`. -/
def extractAuthValue (pp : J) : Option J :=
  match pp with
  | .obj fs =>
    match fs.lookup "payload" with
    | some (.obj afs) =>
      match afs.lookup "authorization" with
      | some (.obj vfs) => vfs.lookup "value"
      | _ => none
    | _ => none
  | _ => none

/-- The body of the inner `try` block of `enforce_amount_and_asset`:
`max_amt = int(pr.max_amount_required); if value > max_amt: raise
HTTPException(422, "Amount exceeds maxAmountRequired")`. -/
def amount_check_inner (v : Int) (maxStr : String) : Except (Nat × String) Unit :=
  match pyInt maxStr.data with
  | none => .error (0, "ValueError: invalid literal for int")
  | some m =>
    if v > m then .error (422, "Amount exceeds maxAmountRequired") else .ok ()

/-- `routes.enforce_amount_and_asset`, embedded from the source.  The
inner `raise HTTPException(...)` sits INSIDE the `try` block whose
`except Exception: pass` catches every `Exception` — and FastAPI's
`HTTPException` is an `Exception` subclass — so every outcome of
`amount_check_inner` is discarded. -/
def enforce_amount_and_asset (paymentPayload : J) (maxAmountRequired : Option String) :
    Except (Nat × String) Unit :=
  let value := (extractAuthValue paymentPayload).bind pyIntOfJ
  match value, maxAmountRequired with
  | some v, some maxStr =>
    match amount_check_inner v maxStr with
    | _ => .ok ()
  | _, _ => .ok ()

/-- C2 (code bug): the amount check never rejects anything.  At the
spec's own failing input — `value = "1000001"`,
`maxAmountRequired = "1000000"` — the inner check raises the 422, but
the enclosing `except Exception: pass` swallows it and the function
returns normally, so no request is ever failed with 422 by this check. -/
theorem c2_amount_check_swallowed :
    (∀ (pp : J) (maxAmt : Option String),
      enforce_amount_and_asset pp maxAmt = .ok ()) ∧
    amount_check_inner 1000001 "1000000" =
      .error (422, "Amount exceeds maxAmountRequired") ∧
    enforce_amount_and_asset
      (J.obj [("payload", J.obj [("authorization",
        J.obj [("value", J.str "1000001")])])])
      (some "1000000") = .ok () ∧
    (extractAuthValue (J.obj [("payload", J.obj [("authorization",
      J.obj [("value", J.str "1000001")])])])).bind pyIntOfJ = some 1000001 := by
  refine ⟨?_, by rfl, by rfl, by rfl⟩
  intro pp maxAmt
  unfold enforce_amount_and_asset
  cases (extractAuthValue pp).bind pyIntOfJ with
  | none => cases maxAmt <;> rfl
  | some v => cases maxAmt <;> rfl

/-! ### Payment-requirements sanitization (claim C9) -/

/-- `x402.types.PaymentRequirements` (external SDK model) as dumped with
camelCase aliases; optional fields are dropped by
`model_dump(exclude_none=True)`. -/
structure PaymentRequirements where
  scheme : String
  network : String
  maxAmountRequired : Option String
  resource : String
  description : Option String
  mimeType : Option String
  outputSchema : Option J
  payTo : String
  maxTimeoutSeconds : Option Int
  asset : String
  extra : Option (List (String × J))

def optField (k : String) (v : Option J) : List (String × J) :=
  match v with
  | some x => [(k, x)]
  | none => []

/-- `body.paymentRequirements.model_dump(by_alias=True, exclude_none=True)`. -/
def dumpPR (pr : PaymentRequirements) : List (String × J) :=
  [("scheme", J.str pr.scheme), ("network", J.str pr.network)]
  ++ optField "maxAmountRequired" (pr.maxAmountRequired.map J.str)
  ++ [("resource", J.str pr.resource)]
  ++ optField "description" (pr.description.map J.str)
  ++ optField "mimeType" (pr.mimeType.map J.str)
  ++ optField "outputSchema" pr.outputSchema
  ++ [("payTo", J.str pr.payTo)]
  ++ optField "maxTimeoutSeconds" (pr.maxTimeoutSeconds.map J.num)
  ++ [("asset", J.str pr.asset)]
  ++ optField "extra" (pr.extra.map J.obj)

/-- The `standard_fields` filter: keep only `name` and `version` from
`extra` (and the `standard_fields if standard_fields else dict()`
fallback, which is the empty dict either way). -/
def keepNameVersion (e : List (String × J)) : List (String × J) :=
  (match e.lookup "name" with
   | some v => [("name", v)]
   | none => [])
  ++ (match e.lookup "version" with
      | some v => [("version", v)]
      | none => [])

def J.isNull : J → Bool
  | .null => true
  | _ => false

/-- The inline sanitization of `proxy_verify`/`proxy_settle`: replace
`extra` by its name/version projection when present, then drop
null-valued top-level entries. -/
def sanitize_payment_requirements (d : List (String × J)) : List (String × J) :=
  let d1 :=
    if (d.lookup "extra").isSome then
      d.map (fun kv =>
        if kv.1 = "extra" then
          (kv.1, match kv.2 with
                 | .obj e => J.obj (keepNameVersion e)
                 | other => other)
        else kv)
    else d
  d1.filter (fun kv => !(J.isNull kv.2))

theorem lookup_append {β : Type} (k : String) (l1 l2 : List (String × β)) :
    (l1 ++ l2).lookup k =
      match l1.lookup k with
      | some v => some v
      | none => l2.lookup k := by
  induction l1 with
  | nil => simp [List.lookup]
  | cons kv rest ih =>
    rcases kv with ⟨k0, v0⟩
    by_cases hk : k = k0
    · simp [List.lookup, hk]
    · have : (k == k0) = false := by simp [hk]
      simp [List.lookup, this, ih]

theorem optField_lookup_ne (k k0 : String) (v : Option J) (h : ¬(k = k0)) :
    (optField k0 v).lookup k = none := by
  cases v with
  | none => rfl
  | some x =>
    have : (k == k0) = false := by simp [h]
    simp [optField, List.lookup, this]

theorem optField_lookup_self (k : String) (v : Option J) :
    (optField k v).lookup k = v := by
  cases v with
  | none => rfl
  | some x => simp [optField, List.lookup]

/-- Lookup through the extra-rewriting map. -/
theorem lookup_map_extra (d : List (String × J)) (g : J → J) (k : String) :
    (d.map (fun kv => if kv.1 = "extra" then (kv.1, g kv.2) else kv)).lookup k =
      if k = "extra" then (d.lookup k).map g else d.lookup k := by
  induction d with
  | nil => by_cases hk : k = "extra" <;> simp [List.lookup, hk]
  | cons kv rest ih =>
    rcases kv with ⟨k0, v0⟩
    by_cases h0 : k0 = "extra"
    · subst h0
      by_cases hk : k = "extra"
      · subst hk
        simp [List.lookup, ih]
      · have : (k == "extra") = false := by simp [hk]
        simp [List.lookup, this, ih, hk]
    · by_cases hk : k = k0
      · subst hk
        have : ¬(k = "extra") := fun hc => h0 hc
        simp only [List.map_cons, if_neg h0]
        simp [List.lookup, this]
      · have : (k == k0) = false := by simp [hk]
        simp only [List.map_cons, if_neg h0]
        simp [List.lookup, this, ih]

/-- Lookup through the null-dropping filter, for a non-null hit. -/
theorem lookup_filter_of_notnull (d : List (String × J)) (k : String) (v : J)
    (h : d.lookup k = some v) (hv : J.isNull v = false) :
    (d.filter (fun kv => !(J.isNull kv.2))).lookup k = some v := by
  induction d with
  | nil => simp [List.lookup] at h
  | cons kv rest ih =>
    rcases kv with ⟨k0, v0⟩
    by_cases hk : k = k0
    · subst hk
      simp only [List.lookup, beq_self_eq_true] at h
      cases h
      simp [List.filter, hv, List.lookup]
    · have hbeq : (k == k0) = false := by simp [hk]
      simp only [List.lookup, hbeq] at h
      by_cases hnull : J.isNull v0
      · simp [List.filter, hnull, ih h]
      · simp [List.filter, hnull, List.lookup, hbeq, ih h]

/-- Lookup through the null-dropping filter, for a miss. -/
theorem lookup_filter_of_none (d : List (String × J)) (k : String)
    (h : d.lookup k = none) :
    (d.filter (fun kv => !(J.isNull kv.2))).lookup k = none := by
  induction d with
  | nil => simp [List.filter, List.lookup]
  | cons kv rest ih =>
    rcases kv with ⟨k0, v0⟩
    by_cases hk : k = k0
    · subst hk
      simp [List.lookup] at h
    · have hbeq : (k == k0) = false := by simp [hk]
      simp only [List.lookup, hbeq] at h
      by_cases hnull : J.isNull v0
      · simp [List.filter, hnull, ih h]
      · simp [List.filter, hnull, List.lookup, hbeq, ih h]

theorem isNull_false_of_ne (v : J) (h : v ≠ J.null) : J.isNull v = false := by
  cases v <;> simp [J.isNull] at h ⊢

/-- The eleven top-level lookups of the dumped requirements dict. -/
theorem dumpPR_lookup (pr : PaymentRequirements) :
    (dumpPR pr).lookup "scheme" = some (J.str pr.scheme) ∧
    (dumpPR pr).lookup "network" = some (J.str pr.network) ∧
    (dumpPR pr).lookup "maxAmountRequired" = pr.maxAmountRequired.map J.str ∧
    (dumpPR pr).lookup "resource" = some (J.str pr.resource) ∧
    (dumpPR pr).lookup "description" = pr.description.map J.str ∧
    (dumpPR pr).lookup "mimeType" = pr.mimeType.map J.str ∧
    (dumpPR pr).lookup "outputSchema" = pr.outputSchema ∧
    (dumpPR pr).lookup "payTo" = some (J.str pr.payTo) ∧
    (dumpPR pr).lookup "maxTimeoutSeconds" = pr.maxTimeoutSeconds.map J.num ∧
    (dumpPR pr).lookup "asset" = some (J.str pr.asset) ∧
    (dumpPR pr).lookup "extra" = pr.extra.map J.obj := by
  refine ⟨?_, ?_, ?_, ?_, ?_, ?_, ?_, ?_, ?_, ?_, ?_⟩ <;>
    (simp only [dumpPR, lookup_append]
     cases pr.maxAmountRequired <;> cases pr.description <;> cases pr.mimeType <;>
       cases pr.outputSchema <;> cases pr.maxTimeoutSeconds <;> cases pr.extra <;>
       simp [optField, List.lookup])

theorem sanitize_lookup_ne_extra (d : List (String × J)) (k : String)
    (hk : ¬(k = "extra")) (v : J) (hv : d.lookup k = some v)
    (hnn : J.isNull v = false) :
    (sanitize_payment_requirements d).lookup k = some v := by
  unfold sanitize_payment_requirements
  by_cases hex : (d.lookup "extra").isSome
  · rw [if_pos hex]
    apply lookup_filter_of_notnull _ _ _ _ hnn
    rw [lookup_map_extra d
      (fun v => match v with
                | .obj e => J.obj (keepNameVersion e)
                | other => other) k]
    rw [if_neg hk]
    exact hv
  · rw [if_neg hex]
    exact lookup_filter_of_notnull _ _ _ hv hnn

theorem sanitize_lookup_none_ne_extra (d : List (String × J)) (k : String)
    (hk : ¬(k = "extra")) (hv : d.lookup k = none) :
    (sanitize_payment_requirements d).lookup k = none := by
  unfold sanitize_payment_requirements
  by_cases hex : (d.lookup "extra").isSome
  · rw [if_pos hex]
    apply lookup_filter_of_none
    rw [lookup_map_extra d
      (fun v => match v with
                | .obj e => J.obj (keepNameVersion e)
                | other => other) k]
    rw [if_neg hk]
    exact hv
  · rw [if_neg hex]
    exact lookup_filter_of_none _ _ hv

theorem sanitize_lookup_extra_obj (d : List (String × J)) (e : List (String × J))
    (hv : d.lookup "extra" = some (J.obj e)) :
    (sanitize_payment_requirements d).lookup "extra" =
      some (J.obj (keepNameVersion e)) := by
  unfold sanitize_payment_requirements
  rw [if_pos (by rw [hv]; rfl)]
  apply lookup_filter_of_notnull _ _ _ _ (by rfl)
  rw [lookup_map_extra d
    (fun v => match v with
              | .obj e => J.obj (keepNameVersion e)
              | other => other) "extra"]
  rw [if_pos rfl, hv]
  rfl

theorem sanitize_lookup_extra_none (d : List (String × J))
    (hv : d.lookup "extra" = none) :
    (sanitize_payment_requirements d).lookup "extra" = none := by
  unfold sanitize_payment_requirements
  rw [if_neg (by rw [hv]; simp)]
  exact lookup_filter_of_none _ _ hv

/-- C9: the forwarded `paymentRequirements` dict equals the inbound one
except that inside `extra` only the `name` and `version` keys are
retained (with their original values, no `ap2` block), and null-valued
top-level fields are dropped (absent optional fields never reach the
forwarded dict); all other top-level fields are forwarded unchanged. -/
theorem c9_sanitize_forwarded (pr : PaymentRequirements)
    (hos : pr.outputSchema ≠ some J.null) :
    (sanitize_payment_requirements (dumpPR pr)).lookup "scheme" =
      some (J.str pr.scheme) ∧
    (sanitize_payment_requirements (dumpPR pr)).lookup "network" =
      some (J.str pr.network) ∧
    (sanitize_payment_requirements (dumpPR pr)).lookup "maxAmountRequired" =
      pr.maxAmountRequired.map J.str ∧
    (sanitize_payment_requirements (dumpPR pr)).lookup "resource" =
      some (J.str pr.resource) ∧
    (sanitize_payment_requirements (dumpPR pr)).lookup "description" =
      pr.description.map J.str ∧
    (sanitize_payment_requirements (dumpPR pr)).lookup "mimeType" =
      pr.mimeType.map J.str ∧
    (sanitize_payment_requirements (dumpPR pr)).lookup "outputSchema" =
      pr.outputSchema ∧
    (sanitize_payment_requirements (dumpPR pr)).lookup "payTo" =
      some (J.str pr.payTo) ∧
    (sanitize_payment_requirements (dumpPR pr)).lookup "maxTimeoutSeconds" =
      pr.maxTimeoutSeconds.map J.num ∧
    (sanitize_payment_requirements (dumpPR pr)).lookup "asset" =
      some (J.str pr.asset) ∧
    (sanitize_payment_requirements (dumpPR pr)).lookup "extra" =
      pr.extra.map (fun e => J.obj (keepNameVersion e)) ∧
    (∀ e : List (String × J),
      (keepNameVersion e).lookup "name" = e.lookup "name" ∧
      (keepNameVersion e).lookup "version" = e.lookup "version" ∧
      (keepNameVersion e).lookup "ap2" = none ∧
      ∀ kv ∈ keepNameVersion e, kv.1 = "name" ∨ kv.1 = "version") := by
  obtain ⟨h1, h2, h3, h4, h5, h6, h7, h8, h9, h10, h11⟩ := dumpPR_lookup pr
  refine ⟨sanitize_lookup_ne_extra _ _ (by decide) _ h1 rfl,
    sanitize_lookup_ne_extra _ _ (by decide) _ h2 rfl, ?_,
    sanitize_lookup_ne_extra _ _ (by decide) _ h4 rfl, ?_, ?_, ?_,
    sanitize_lookup_ne_extra _ _ (by decide) _ h8 rfl, ?_,
    sanitize_lookup_ne_extra _ _ (by decide) _ h10 rfl, ?_, ?_⟩
  · cases hf : pr.maxAmountRequired with
    | none => rw [hf] at h3; exact sanitize_lookup_none_ne_extra _ _ (by decide) h3
    | some s =>
      rw [hf] at h3
      exact sanitize_lookup_ne_extra _ _ (by decide) _ h3 rfl
  · cases hf : pr.description with
    | none => rw [hf] at h5; exact sanitize_lookup_none_ne_extra _ _ (by decide) h5
    | some s =>
      rw [hf] at h5
      exact sanitize_lookup_ne_extra _ _ (by decide) _ h5 rfl
  · cases hf : pr.mimeType with
    | none => rw [hf] at h6; exact sanitize_lookup_none_ne_extra _ _ (by decide) h6
    | some s =>
      rw [hf] at h6
      exact sanitize_lookup_ne_extra _ _ (by decide) _ h6 rfl
  · cases hf : pr.outputSchema with
    | none => rw [hf] at h7; exact sanitize_lookup_none_ne_extra _ _ (by decide) h7
    | some v =>
      rw [hf] at h7
      rw [hf] at hos
      exact sanitize_lookup_ne_extra _ _ (by decide) _ h7
        (isNull_false_of_ne v (fun hc => hos (by rw [hc])))
  · cases hf : pr.maxTimeoutSeconds with
    | none => rw [hf] at h9; exact sanitize_lookup_none_ne_extra _ _ (by decide) h9
    | some n =>
      rw [hf] at h9
      exact sanitize_lookup_ne_extra _ _ (by decide) _ h9 rfl
  · cases hf : pr.extra with
    | none => rw [hf] at h11; exact sanitize_lookup_extra_none _ h11
    | some e =>
      rw [hf] at h11
      exact sanitize_lookup_extra_obj _ e h11
  · intro e
    refine ⟨?_, ?_, ?_, ?_⟩
    · cases hn : e.lookup "name" with
      | none =>
        cases hv : e.lookup "version" with
        | none => simp [keepNameVersion, hn, hv, List.lookup]
        | some v => simp [keepNameVersion, hn, hv, List.lookup]
      | some v => simp [keepNameVersion, hn, List.lookup]
    · cases hn : e.lookup "name" with
      | none =>
        cases hv : e.lookup "version" with
        | none => simp [keepNameVersion, hn, hv, List.lookup]
        | some v => simp [keepNameVersion, hn, hv, List.lookup]
      | some v =>
        cases hv : e.lookup "version" with
        | none => simp [keepNameVersion, hn, hv, List.lookup]
        | some w => simp [keepNameVersion, hn, hv, List.lookup]
    · cases hn : e.lookup "name" with
      | none =>
        cases hv : e.lookup "version" with
        | none => simp [keepNameVersion, hn, hv, List.lookup]
        | some v => simp [keepNameVersion, hn, hv, List.lookup]
      | some v =>
        cases hv : e.lookup "version" with
        | none => simp [keepNameVersion, hn, hv, List.lookup]
        | some w => simp [keepNameVersion, hn, hv, List.lookup]
    · intro kv hkv
      unfold keepNameVersion at hkv
      rcases List.mem_append.mp hkv with hm | hm
      · left
        cases hn : e.lookup "name" with
        | none => rw [hn] at hm; simp at hm
        | some v =>
          rw [hn] at hm
          rcases List.mem_cons.mp hm with he | he
          · rw [he]
          · simp at he
      · right
        cases hv : e.lookup "version" with
        | none => rw [hv] at hm; simp at hm
        | some v =>
          rw [hv] at hm
          rcases List.mem_cons.mp hm with he | he
          · rw [he]
          · simp at he

/-- Witness for `c9_sanitize_forwarded`: the spec's own example, with a
null `description` and an `ap2` block in `extra`. -/
theorem c9_sanitize_forwarded_witness :
    (sanitize_payment_requirements (dumpPR
      ⟨"exact", "base-sepolia", some "1000000", "https://api.example.com/item",
       none, none, none, "0xabc", some 60, "0xusdc",
       some [("name", J.str "USDC"), ("version", J.str "2"),
             ("ap2", J.obj [("requireTrace", J.bool true)])]⟩)).lookup "description" =
      none ∧
    (sanitize_payment_requirements (dumpPR
      ⟨"exact", "base-sepolia", some "1000000", "https://api.example.com/item",
       none, none, none, "0xabc", some 60, "0xusdc",
       some [("name", J.str "USDC"), ("version", J.str "2"),
             ("ap2", J.obj [("requireTrace", J.bool true)])]⟩)).lookup "extra" =
      some (J.obj [("name", J.str "USDC"), ("version", J.str "2")]) := by
  have h := c9_sanitize_forwarded
    ⟨"exact", "base-sepolia", some "1000000", "https://api.example.com/item",
     none, none, none, "0xabc", some 60, "0xusdc",
     some [("name", J.str "USDC"), ("version", J.str "2"),
           ("ap2", J.obj [("requireTrace", J.bool true)])]⟩
    (by intro hc; cases hc)
  refine ⟨?_, ?_⟩
  · exact h.2.2.2.2.1
  · rw [h.2.2.2.2.2.2.2.2.2.2.1]
    rfl

/-! ### Header helpers used by the routes -/

/-- Hex digit of either case. -/
def isHexAny (c : Char) : Bool :=
  ('0' ≤ c && c ≤ '9') || ('a' ≤ c && c ≤ 'f') || ('A' ≤ c && c ≤ 'F')

/-- `uuid.UUID(value)` acceptance, modelled on the canonical
`8-4-4-4-12` form (the stdlib also accepts brace/urn/no-dash variants,
which the gateway never emits).  Returns the groups. -/
def uuidGroups (s : List Char) : Option (List (List Char)) :=
  match splitChar '-' s with
  | [a, b, c, d, e] =>
    if a.length = 8 ∧ b.length = 4 ∧ c.length = 4 ∧ d.length = 4 ∧ e.length = 12 ∧
        (a ++ b ++ c ++ d ++ e).all isHexAny then
      some [a, b, c, d, e]
    else none
  | _ => none

/-- `headers._require_uuid`: presence, UUID parse, version ∈ (1, 4);
returns `str(u)` (the lowercased canonical form). -/
def require_uuid (v : Option String) (name : String) : Except (List Char) String :=
  match v with
  | none => .error (name ++ " required").data
  | some s =>
    match uuidGroups s.data with
    | none => .error (name ++ " invalid: badly formed hexadecimal UUID string").data
    | some groups =>
      let versionNibble := ((groups.get? 2).getD []).head?.getD '0'
      if versionNibble.toLower = '1' ∨ versionNibble.toLower = '4' then
        .ok (String.mk (s.data.map Char.toLower))
      else .error (name ++ " must be UUID v1 or v4").data

/-- `headers.parse_risk_ids` with `x_risk_trace = None` (as the routes
call it). -/
def parse_risk_ids (xRiskSession : Option String) : Except (List Char) String :=
  require_uuid xRiskSession "X-RISK-SESSION"

/-- The `kv` loop of `parse_x_ap2_evidence`. -/
def collectKVEv : List (List Char) → Except (List Char) (List (List Char × List Char))
  | [] => .ok []
  | p :: rest =>
    match splitEq p with
    | none => .error "Malformed X-AP2-EVIDENCE segment".data
    | some kv =>
      match collectKVEv rest with
      | .error e => .error e
      | .ok pairs => .ok (kv :: pairs)

/-- The parsed `X-AP2-EVIDENCE` mandate header. -/
structure Mandate where
  mr : List Char
  ms : List Char
  mt : List Char
  sz : List Char
deriving DecidableEq

/-- `headers.parse_x_ap2_evidence`, embedded from the source. -/
def parse_x_ap2_evidence (s : List Char) : Except (List Char) Mandate :=
  if 2048 < s.length then .error "X-AP2-EVIDENCE too large".data
  else
    match segsOf s with
    | [] => .error "Unsupported X-AP2-EVIDENCE version".data
    | p0 :: rest =>
      if p0 ≠ "evd.v1".data then .error "Unsupported X-AP2-EVIDENCE version".data
      else
        match collectKVEv rest with
        | .error e => .error e
        | .ok pairs =>
          match lastLookup "mr".data pairs, lastLookup "ms".data pairs,
              lastLookup "mt".data pairs, lastLookup "sz".data pairs with
          | some mr, some ms, some mt, some sz =>
            if mt ≠ "application/json".data then
              .error "mt must be application/json".data
            else if ¬ (sz ≠ [] ∧ sz.all (fun c => '0' ≤ c && c ≤ '9')) then
              .error "sz must be decimal size".data
            else .ok ⟨mr, ms, mt, sz⟩
          | _, _, _, _ => .error "Missing required evidence keys".data

/-! ### AP2 evidence and origin binding -/

/-- `routes.AP2Evidence` (pydantic model, fields as decoded from the
base64 JSON evidence). -/
structure AP2Evidence where
  v : Int
  paymentHash : String
  resource : String
  originHash : String
  network : String
  asset : String
  payTo : String
  intent_uid : String
  cart_uid : Option String
  payment_uid : Option String
  trace_uid : String
  notBefore : Option Int
  notAfter : Option Int
  exp : Option String
  sig : Option String
  kid : Option String

/-- `routes._sha256_lower_origin`: `sha256(origin.strip().lower())`. -/
def sha256_lower_origin (origin : List Char) : List Nat :=
  sha256 (utf8 ((pyStrip origin).map Char.toLower))

/-- `urllib.parse.urlparse`, reduced to the `(scheme, netloc)` pair for
`scheme://authority/...`-shaped URLs (all the gateway handles). -/
def urlparse_scheme_netloc : List Char → (List Char × List Char) :=
  fun url =>
    let rec findScheme : List Char → Option (List Char × List Char) :=
      fun l =>
        match l with
        | ':' :: '/' :: '/' :: rest => some ([], rest)
        | c :: rest =>
          match findScheme rest with
          | some (sch, tail) => some (c :: sch, tail)
          | none => none
        | [] => none
    match findScheme url with
    | some (sch, tail) =>
      (sch.map Char.toLower, tail.takeWhile (fun c => c ≠ '/' ∧ c ≠ '?' ∧ c ≠ '#'))
    | none => ([], [])

/-- `routes.verify_origin_binding`, embedded from the source. -/
def verify_origin_binding (ev : AP2Evidence) (pr : PaymentRequirements)
    (originHeader : Option String) : Except String Unit :=
  let origin : List Char :=
    match originHeader with
    | some o => o.data
    | none =>
      let sn := urlparse_scheme_netloc pr.resource.data
      (if sn.1 = [] then "https".data else sn.1) ++ "://".data ++ sn.2
  let expected := sha256_lower_origin origin
  match b32 ev.originHash.data with
  | none => .error "ValueError: non-hexadecimal originHash"
  | some h => if h = expected then .ok () else .error "AP2: originHash mismatch"

/-- Lowercase hex rendering of a byte string (`bytes.hex()`). -/
def bytesToHex (bs : List Nat) : List Char :=
  (bs.map (fun b =>
    let d := fun v => if v < 10 then Char.ofNat (48 + v) else Char.ofNat (97 + v - 10)
    [d (b / 16), d (b % 16)])).flatten

/-! ### The `/x402/verify` and `/x402/settle` route handlers -/

/-- The request-determined inputs of `proxy_verify`. -/
structure VerifyInput where
  xPayment : Option String
  xPaymentSecure : Option String
  xRiskSession : Option String
  xAp2Evidence : Option String
  origin : Option String
  x402Version : Int
  paymentPayload : J
  paymentRequirements : PaymentRequirements
  ap2EvidenceHeader : Option String

/-- Outcome of the HTTP POST to `/risk/evaluate`: status, raw text, and
the `EvaluateResponse(**r.json())` parse. -/
structure RiskHttp where
  status : Nat
  text : String
  parsed : Except String EvaluateResponse

/-- Outcome of the HTTP POST to the upstream facilitator. -/
structure UpstreamHttp where
  status : Nat
  text : String
  isValid : Bool
  payer : String
  invalidReason : Option String
  success : Bool
  transaction : Option String
  network : Option String
  errorReason : Option String

/-- Observable result of a route handler: response data, headers written
to the response object, and which outbound calls were made. -/
structure RouteResult where
  status : Nat
  errorCode : Option String
  errorMessage : Option String
  requestIdBody : Option String
  headersSet : List (String × String)
  riskCalled : Bool
  upstreamCalled : Bool
  forwardedRequirements : Option (List (String × J))
  isValidOut : Option Bool
  successOut : Option Bool

/-- `routes._error_response` (plus the call bookkeeping). -/
def errRes (status : Nat) (msg : List Char) (reqId : String)
    (hdrs : List (String × String)) (rc uc : Bool)
    (fwd : Option (List (String × J))) : RouteResult :=
  { status := status,
    errorCode := some (error_code_from_message msg),
    errorMessage := some (String.mk msg),
    requestIdBody := some reqId,
    headersSet := hdrs,
    riskCalled := rc,
    upstreamCalled := uc,
    forwardedRequirements := fwd,
    isValidOut := none,
    successOut := none }

/-- The risk-decision response headers written after a 200 evaluator
response. -/
def riskHeaders (resp : EvaluateResponse) : List (String × String) :=
  [("X-Risk-Decision", resp.decision.value)]
  ++ (if resp.decision_id ≠ "" then [("X-Risk-Decision-ID", resp.decision_id)] else [])
  ++ (if resp.ttl_seconds ≠ 0 then [("X-Risk-TTL-Seconds", toString resp.ttl_seconds)] else [])

/-- The deny message: `"Risk denied" + (f": {', '.join(reasons)}" if
reasons else "")`. -/
def denyMessage (reasons : List String) : List Char :=
  "Risk denied".data ++
    (if reasons ≠ [] then (": " ++ String.intercalate ", " reasons).data else [])

/-- The optional-mandate parse step of both routes:
`parse_x_ap2_evidence(x_ap2_evidence) if x_ap2_evidence else None`. -/
def mandateStage (x : Option String) : Except (List Char) (Option Mandate) :=
  match x with
  | none => .ok none
  | some m => (parse_x_ap2_evidence m.data).map some

/-- `routes.proxy_verify`, embedded from the source.  The evaluator and
upstream HTTP results are parameters; `reqId` is the fresh
`uuid.uuid4().hex`.  The route never invokes `verify_ap2`: after the
risk gate it sanitizes and forwards directly. -/
def proxy_verify (inp : VerifyInput) (risk : RiskHttp) (upstream : UpstreamHttp)
    (reqId : String) : RouteResult :=
  let hdr0 := [("X-Request-ID", reqId)]
  match parse_risk_ids inp.xRiskSession with
  | .error e => errRes 400 e reqId hdr0 false false none
  | .ok _sid =>
    match inp.xPaymentSecure with
    | none => errRes 400 "X-PAYMENT-SECURE required".data reqId hdr0 false false none
    | some xps =>
      match parse_x_payment_secure xps.data with
      | .error e => errRes 400 e reqId hdr0 false false none
      | .ok _tc =>
        match mandateStage inp.xAp2Evidence with
        | .error e => errRes 400 e reqId hdr0 false false none
        | .ok _mandate =>
          if risk.status ≠ 200 then
            errRes risk.status risk.text.data reqId hdr0 true false none
          else
            match risk.parsed with
            | .error emsg =>
              errRes 502 ("Invalid risk response: " ++ emsg).data reqId hdr0 true false none
            | .ok resp =>
              let hdr1 := hdr0 ++ riskHeaders resp
              if resp.decision = Decision.deny then
                errRes 403 (denyMessage resp.reasons) reqId hdr1 true false none
              else
                let fwd := sanitize_payment_requirements (dumpPR inp.paymentRequirements)
                if upstream.status ≠ 200 then
                  errRes upstream.status upstream.text.data reqId hdr1 true true (some fwd)
                else
                  { status := 200, errorCode := none, errorMessage := none,
                    requestIdBody := none, headersSet := hdr1,
                    riskCalled := true, upstreamCalled := true,
                    forwardedRequirements := some fwd,
                    isValidOut := some upstream.isValid, successOut := none }

/-- `routes.ProxyRuntimeConfig` (the fields the control flow reads; the
timeout is unused by the logic modelled here). -/
structure ProxyRuntimeConfig where
  upstream_verify_url : String
  upstream_settle_url : String
  debug_enabled : Bool
  settle_risk_enabled : Bool

/-- `routes.proxy_settle`, embedded from the source: when
`settle_risk_enabled` the full risk path of `proxy_verify` runs
(duplicated in the source); otherwise the evaluator is not called at
all and `X-Risk-Decision: skipped` is written. -/
def proxy_settle (cfg : ProxyRuntimeConfig) (inp : VerifyInput) (risk : RiskHttp)
    (upstream : UpstreamHttp) (reqId : String) : RouteResult :=
  let hdr0 := [("X-Request-ID", reqId)]
  let tail := fun (hdrs : List (String × String)) (rc : Bool) =>
    let fwd := sanitize_payment_requirements (dumpPR inp.paymentRequirements)
    if upstream.status ≠ 200 then
      errRes upstream.status upstream.text.data reqId hdrs rc true (some fwd)
    else
      { status := 200, errorCode := none, errorMessage := none,
        requestIdBody := none, headersSet := hdrs,
        riskCalled := rc, upstreamCalled := true,
        forwardedRequirements := some fwd,
        isValidOut := none, successOut := some upstream.success : RouteResult }
  if cfg.settle_risk_enabled then
    match parse_risk_ids inp.xRiskSession with
    | .error e => errRes 400 e reqId hdr0 false false none
    | .ok _sid =>
      match inp.xPaymentSecure with
      | none => errRes 400 "X-PAYMENT-SECURE required".data reqId hdr0 false false none
      | some xps =>
        match parse_x_payment_secure xps.data with
        | .error e => errRes 400 e reqId hdr0 false false none
        | .ok _tc =>
          match mandateStage inp.xAp2Evidence with
          | .error e => errRes 400 e reqId hdr0 false false none
          | .ok _mandate =>
            if risk.status ≠ 200 then
              errRes risk.status risk.text.data reqId hdr0 true false none
            else
              match risk.parsed with
              | .error emsg =>
                errRes 502 ("Invalid risk response: " ++ emsg).data reqId hdr0 true false none
              | .ok resp =>
                let hdr1 := hdr0 ++ riskHeaders resp
                if resp.decision = Decision.deny then
                  errRes 403 (denyMessage resp.reasons) reqId hdr1 true false none
                else
                  tail hdr1 true
  else
    tail (hdr0 ++ [("X-Risk-Decision", "skipped")]) false

/-- C6: with `settle_risk_enabled = false`, `/x402/settle` performs no
HTTP call to the risk evaluator for any input, writes
`X-Risk-Decision: skipped`, and still forwards to the upstream
facilitator. -/
theorem c6_settle_risk_disabled (cfg : ProxyRuntimeConfig) (inp : VerifyInput)
    (risk : RiskHttp) (upstream : UpstreamHttp) (reqId : String)
    (h : cfg.settle_risk_enabled = false) :
    (proxy_settle cfg inp risk upstream reqId).riskCalled = false ∧
    ("X-Risk-Decision", "skipped") ∈
      (proxy_settle cfg inp risk upstream reqId).headersSet ∧
    (proxy_settle cfg inp risk upstream reqId).upstreamCalled = true := by
  unfold proxy_settle
  rw [h]
  dsimp only
  by_cases hu : upstream.status ≠ 200
  · rw [if_pos hu]
    simp [errRes]
  · rw [if_neg hu]
    simp

/-- Witness for `c6_settle_risk_disabled` at a concrete configuration
and request. -/
theorem c6_settle_risk_disabled_witness :
    (proxy_settle ⟨"http://up/verify", "http://up/settle", true, false⟩
      ⟨none, none, none, none, none, 1, J.null,
       ⟨"exact", "base", none, "https://r", none, none, none, "0xabc", none, "0xusdc", none⟩,
       none⟩
      ⟨200, "", .error "unused"⟩
      ⟨200, "", true, "0xpayer", none, true, none, none, none⟩
      "req-6").riskCalled = false ∧
    ("X-Risk-Decision", "skipped") ∈
      (proxy_settle ⟨"http://up/verify", "http://up/settle", true, false⟩
        ⟨none, none, none, none, none, 1, J.null,
         ⟨"exact", "base", none, "https://r", none, none, none, "0xabc", none, "0xusdc", none⟩,
         none⟩
        ⟨200, "", .error "unused"⟩
        ⟨200, "", true, "0xpayer", none, true, none, none, none⟩
        "req-6").headersSet ∧
    (proxy_settle ⟨"http://up/verify", "http://up/settle", true, false⟩
      ⟨none, none, none, none, none, 1, J.null,
       ⟨"exact", "base", none, "https://r", none, none, none, "0xabc", none, "0xusdc", none⟩,
       none⟩
      ⟨200, "", .error "unused"⟩
      ⟨200, "", true, "0xpayer", none, true, none, none, none⟩
      "req-6").upstreamCalled = true :=
  c6_settle_risk_disabled _ _ _ _ _ rfl

theorem string_mk_data (s : String) : String.mk s.data = s := rfl

/-- C4 (counterexample): a deny decision whose reasons list contains an
earlier mapping key — here `originhash mismatch` — yields error code
`AP2_ORIGIN_MISMATCH`, not `RISK_DENIED`, because
`_error_code_from_message` scans the whole message and that key
precedes `risk denied` in the table. -/
theorem c4_reason_key_shadows_code :
    (proxy_verify
      ⟨none, some "w3c.v1;tp=00-0123456789abcdef0123456789abcdef-0123456789abcdef-01",
       some "123e4567-e89b-41d4-a716-446655440000", none, some "https://good.example",
       1, J.null,
       ⟨"exact", "base-sepolia", some "1000000", "https://api.example.com/x",
        none, none, none, "0xabc", none, "0xusdc", none⟩, none⟩
      ⟨200, "", .ok ⟨Decision.deny, ["originhash mismatch"], "d-1", 300, false, [],
        RiskLevel.low, []⟩⟩
      ⟨200, "", true, "0xpayer", none, true, none, none, none⟩
      "req-4").status = 403 ∧
    (proxy_verify
      ⟨none, some "w3c.v1;tp=00-0123456789abcdef0123456789abcdef-0123456789abcdef-01",
       some "123e4567-e89b-41d4-a716-446655440000", none, some "https://good.example",
       1, J.null,
       ⟨"exact", "base-sepolia", some "1000000", "https://api.example.com/x",
        none, none, none, "0xabc", none, "0xusdc", none⟩, none⟩
      ⟨200, "", .ok ⟨Decision.deny, ["originhash mismatch"], "d-1", 300, false, [],
        RiskLevel.low, []⟩⟩
      ⟨200, "", true, "0xpayer", none, true, none, none, none⟩
      "req-4").errorCode = some "AP2_ORIGIN_MISMATCH" := by
  constructor
  · rfl
  · rfl

/-- C4 (amended): on a deny decision with non-empty reasons the verify
endpoint responds 403 without calling upstream, with message
`Risk denied: <joined reasons>`, `request_id` in the body, and writes
`X-Risk-Decision: deny` (plus `X-Request-ID`); the body error code is
`_error_code_from_message` of that message, which is `RISK_DENIED`
whenever no earlier table key occurs in the lowercased message — in
particular for the spec's `reasons = ["velocity"]`. -/
theorem c4_risk_deny (inp : VerifyInput) (risk : RiskHttp) (upstream : UpstreamHttp)
    (reqId sid : String) (xps : String) (tc : TraceCtx) (m : Option Mandate)
    (resp : EvaluateResponse)
    (h1 : parse_risk_ids inp.xRiskSession = .ok sid)
    (h2 : inp.xPaymentSecure = some xps)
    (h3 : parse_x_payment_secure xps.data = .ok tc)
    (h4 : mandateStage inp.xAp2Evidence = .ok m)
    (h5 : risk.status = 200)
    (h6 : risk.parsed = .ok resp)
    (h7 : resp.decision = Decision.deny)
    (h8 : resp.reasons ≠ []) :
    (proxy_verify inp risk upstream reqId).status = 403 ∧
    (proxy_verify inp risk upstream reqId).errorMessage =
      some ("Risk denied: " ++ String.intercalate ", " resp.reasons) ∧
    (proxy_verify inp risk upstream reqId).errorCode =
      some (error_code_from_message (denyMessage resp.reasons)) ∧
    ("X-Risk-Decision", "deny") ∈ (proxy_verify inp risk upstream reqId).headersSet ∧
    ("X-Request-ID", reqId) ∈ (proxy_verify inp risk upstream reqId).headersSet ∧
    (proxy_verify inp risk upstream reqId).requestIdBody = some reqId ∧
    (proxy_verify inp risk upstream reqId).upstreamCalled = false ∧
    error_code_from_message (denyMessage ["velocity"]) = "RISK_DENIED" := by
  have hmsg : denyMessage resp.reasons =
      ("Risk denied: " ++ String.intercalate ", " resp.reasons).data := by
    unfold denyMessage
    rw [if_pos h8]
    rw [String.data_append, String.data_append]
    rfl
  have hre : (proxy_verify inp risk upstream reqId) =
      errRes 403 (denyMessage resp.reasons) reqId
        ([("X-Request-ID", reqId)] ++ riskHeaders resp) true false none := by
    unfold proxy_verify
    rw [h1]
    dsimp only
    rw [h2]
    dsimp only
    rw [h3]
    dsimp only
    rw [h4]
    dsimp only
    rw [h5]
    rw [if_neg (by simp)]
    rw [h6]
    dsimp only
    rw [if_pos h7]
  rw [hre]
  refine ⟨rfl, ?_, rfl, ?_, ?_, rfl, rfl, by rfl⟩
  · show some (String.mk (denyMessage resp.reasons)) = _
    rw [hmsg, string_mk_data]
  · show _ ∈ [("X-Request-ID", reqId)] ++ riskHeaders resp
    apply List.mem_append_right
    unfold riskHeaders
    rw [h7]
    exact List.mem_cons_self _ _
  · exact List.mem_append_left _ (List.mem_cons_self _ _)

/-- Witness for `c4_risk_deny` at the spec's scenario
(`reasons = ["velocity"]`). -/
theorem c4_risk_deny_witness :
    (proxy_verify
      ⟨none, some "w3c.v1;tp=00-0123456789abcdef0123456789abcdef-0123456789abcdef-01",
       some "123e4567-e89b-41d4-a716-446655440000", none, some "https://good.example",
       1, J.null,
       ⟨"exact", "base-sepolia", some "1000000", "https://api.example.com/x",
        none, none, none, "0xabc", none, "0xusdc", none⟩, none⟩
      ⟨200, "", .ok ⟨Decision.deny, ["velocity"], "d-1", 300, false, [],
        RiskLevel.low, []⟩⟩
      ⟨200, "", true, "0xpayer", none, true, none, none, none⟩
      "req-4w").status = 403 ∧
    (proxy_verify
      ⟨none, some "w3c.v1;tp=00-0123456789abcdef0123456789abcdef-0123456789abcdef-01",
       some "123e4567-e89b-41d4-a716-446655440000", none, some "https://good.example",
       1, J.null,
       ⟨"exact", "base-sepolia", some "1000000", "https://api.example.com/x",
        none, none, none, "0xabc", none, "0xusdc", none⟩, none⟩
      ⟨200, "", .ok ⟨Decision.deny, ["velocity"], "d-1", 300, false, [],
        RiskLevel.low, []⟩⟩
      ⟨200, "", true, "0xpayer", none, true, none, none, none⟩
      "req-4w").errorMessage = some "Risk denied: velocity" ∧
    error_code_from_message (denyMessage ["velocity"]) = "RISK_DENIED" := by
  have h := c4_risk_deny
    ⟨none, some "w3c.v1;tp=00-0123456789abcdef0123456789abcdef-0123456789abcdef-01",
     some "123e4567-e89b-41d4-a716-446655440000", none, some "https://good.example",
     1, J.null,
     ⟨"exact", "base-sepolia", some "1000000", "https://api.example.com/x",
      none, none, none, "0xabc", none, "0xusdc", none⟩, none⟩
    ⟨200, "", .ok ⟨Decision.deny, ["velocity"], "d-1", 300, false, [],
      RiskLevel.low, []⟩⟩
    ⟨200, "", true, "0xpayer", none, true, none, none, none⟩
    "req-4w" "123e4567-e89b-41d4-a716-446655440000"
    "w3c.v1;tp=00-0123456789abcdef0123456789abcdef-0123456789abcdef-01"
    ⟨"00-0123456789abcdef0123456789abcdef-0123456789abcdef-01".data, none⟩
    none
    ⟨Decision.deny, ["velocity"], "d-1", 300, false, [], RiskLevel.low, []⟩
    (by rfl) rfl (by rfl) rfl rfl rfl rfl (by decide)
  exact ⟨h.1, by rw [h.2.1]; rfl, h.2.2.2.2.2.2.2⟩

/-- C1 (code bug): `proxy_verify` never runs AP2 evidence validation.
At a request with an allow decision, `Origin: https://good.example`,
and AP2 evidence whose `originHash` is `sha256("https://evil.example")`,
the endpoint forwards upstream and returns 200 — the route's result
does not depend on the evidence at all — although
`verify_origin_binding` (the check `verify_ap2` would run) rejects this
very evidence with `AP2: originHash mismatch`, whose error code is
`AP2_ORIGIN_MISMATCH`. -/
theorem c1_verify_skips_ap2 :
    (proxy_verify
      ⟨none, some "w3c.v1;tp=00-0123456789abcdef0123456789abcdef-0123456789abcdef-01",
       some "123e4567-e89b-41d4-a716-446655440000", none, some "https://good.example",
       1, J.null,
       ⟨"exact", "base-sepolia", some "1000000", "https://api.example.com/x",
        none, none, none, "0xabc", none, "0xusdc", none⟩,
       some "ZXZpZGVuY2U="⟩
      ⟨200, "", .ok ⟨Decision.allow, [], "d-1", 300, false, [], RiskLevel.low, []⟩⟩
      ⟨200, "", true, "0xpayer", none, true, none, none, none⟩
      "req-1").status = 200 ∧
    (proxy_verify
      ⟨none, some "w3c.v1;tp=00-0123456789abcdef0123456789abcdef-0123456789abcdef-01",
       some "123e4567-e89b-41d4-a716-446655440000", none, some "https://good.example",
       1, J.null,
       ⟨"exact", "base-sepolia", some "1000000", "https://api.example.com/x",
        none, none, none, "0xabc", none, "0xusdc", none⟩,
       some "ZXZpZGVuY2U="⟩
      ⟨200, "", .ok ⟨Decision.allow, [], "d-1", 300, false, [], RiskLevel.low, []⟩⟩
      ⟨200, "", true, "0xpayer", none, true, none, none, none⟩
      "req-1").upstreamCalled = true ∧
    (proxy_verify
      ⟨none, some "w3c.v1;tp=00-0123456789abcdef0123456789abcdef-0123456789abcdef-01",
       some "123e4567-e89b-41d4-a716-446655440000", none, some "https://good.example",
       1, J.null,
       ⟨"exact", "base-sepolia", some "1000000", "https://api.example.com/x",
        none, none, none, "0xabc", none, "0xusdc", none⟩,
       some "ZXZpZGVuY2U="⟩
      ⟨200, "", .ok ⟨Decision.allow, [], "d-1", 300, false, [], RiskLevel.low, []⟩⟩
      ⟨200, "", true, "0xpayer", none, true, none, none, none⟩
      "req-1").errorCode = none ∧
    (∀ e : Option String,
      proxy_verify
        ⟨none, some "w3c.v1;tp=00-0123456789abcdef0123456789abcdef-0123456789abcdef-01",
         some "123e4567-e89b-41d4-a716-446655440000", none, some "https://good.example",
         1, J.null,
         ⟨"exact", "base-sepolia", some "1000000", "https://api.example.com/x",
          none, none, none, "0xabc", none, "0xusdc", none⟩,
         e⟩
        ⟨200, "", .ok ⟨Decision.allow, [], "d-1", 300, false, [], RiskLevel.low, []⟩⟩
        ⟨200, "", true, "0xpayer", none, true, none, none, none⟩
        "req-1" =
      proxy_verify
        ⟨none, some "w3c.v1;tp=00-0123456789abcdef0123456789abcdef-0123456789abcdef-01",
         some "123e4567-e89b-41d4-a716-446655440000", none, some "https://good.example",
         1, J.null,
         ⟨"exact", "base-sepolia", some "1000000", "https://api.example.com/x",
          none, none, none, "0xabc", none, "0xusdc", none⟩,
         some "ZXZpZGVuY2U="⟩
        ⟨200, "", .ok ⟨Decision.allow, [], "d-1", 300, false, [], RiskLevel.low, []⟩⟩
        ⟨200, "", true, "0xpayer", none, true, none, none, none⟩
        "req-1") ∧
    verify_origin_binding
      ⟨1, "0xaaaaaaaaaaaaaaaaaaaaaaaaaaaaaaaaaaaaaaaaaaaaaaaaaaaaaaaaaaaaaaaa",
       "https://api.example.com/x",
       String.mk ('0' :: 'x' :: bytesToHex (sha256_lower_origin "https://evil.example".data)),
       "base-sepolia", "0xusdc", "0xabc", "0xintent", none, none, "0xtrace",
       none, none, none, none, none⟩
      ⟨"exact", "base-sepolia", some "1000000", "https://api.example.com/x",
       none, none, none, "0xabc", none, "0xusdc", none⟩
      (some "https://good.example") = .error "AP2: originHash mismatch" ∧
    error_code_from_message "AP2: originHash mismatch".data = "AP2_ORIGIN_MISMATCH" := by
  refine ⟨rfl, rfl, rfl, fun e => rfl, ?_, by rfl⟩
  rfl

end X402
